import Mathlib

/-!
# UE4RetainerBoxFix: a shallow embedding of `SUIRetainerBoxWidget`

The definitions below follow `src/SUIRetainerBoxWidget.cpp`, `src/SUIRetainerBoxWidget.h`
and `src/UIRetainerBox.cpp`.

Conventions of the embedding:
* `float` values are finite and are represented by rationals (`ℚ`); `FMath::RoundToInt`
  is the floor of `x + 1/2`.
* pointers (`this`, `FCachedWidgetNode*`) are natural-number addresses; `nullptr` on a
  nullable field is `none`.
* `int32` fields are `Int`; conversions to `uint64` are explicit (`toUInt64`).
* an integer division by zero and an out-of-range `TArray` index are faults: the
  functions that can reach one return `Option`, with `none` for the fault.
-/

namespace UIRetainerBox

/-! ## Engine types used by the widget -/

/-- An `FVector2D`: two floats. -/
structure FVector2D where
  X : ℚ
  Y : ℚ
  deriving DecidableEq

/-- Modelled from the spec: the enum `EUIRetainerBoxColourSpace` is declared in
`UIRetainerBoxTypes.h`, which is not part of the sources. The spec speaks of a colour space
that is either linear or gamma-encoded; the code only ever tests `!= Linear`. -/
inductive EUIRetainerBoxColourSpace where
  | Linear
  | Gamma
  deriving DecidableEq

/-- Pixel formats that the widget distinguishes. -/
inductive EPixelFormat where
  | PF_Unknown
  | PF_B8G8R8A8
  deriving DecidableEq

/-- The fields of `UTextureRenderTarget2D` that the widget reads or writes. -/
structure UTextureRenderTarget2D where
  SRGB : Bool
  TargetGamma : ℚ
  SurfaceWidth : Nat
  SurfaceHeight : Nat
  OverrideFormat : EPixelFormat
  /-- whether `GameThread_GetRenderTargetResource()` is non-null -/
  bHasResource : Bool
  deriving DecidableEq

/-- The settings of `FWidgetRenderer` that `UpdateWidgetRenderer` writes. -/
structure FWidgetRenderer where
  bUseGammaCorrection : Bool
  bPrepassNeeded : Bool
  bClearHitTestGrid : Bool
  deriving DecidableEq

/-- The class `FUIRetainerBoxWidgetRenderingResources`. `Construct` (lines 133 to 138) stores
a fresh render target before any other member function runs and nothing resets the pointer,
so `RenderTarget` is never null and is kept by value. The dynamic effect is kept as a flag:
whether `DynamicEffect` is non-null. -/
structure FUIRetainerBoxWidgetRenderingResources where
  WidgetRenderer : Option FWidgetRenderer
  RenderTarget : UTextureRenderTarget2D
  bDynamicEffect : Bool
  deriving DecidableEq

/-- The result of `GetChildren`: which slot the returned `FChildren*` points at. -/
inductive FChildren where
  | EmptyChildSlot
  | ChildSlot
  deriving DecidableEq

/-! ## The widget -/

/-- The mutable members of `SUIRetainerBoxWidget` (header lines 106 to 150). `LastTickedFrame`
holds the bits of a `GFrameCounter` value; `LastDrawTime`, the brushes, the window and the
world pointer do not influence any decision of the widget and are left out. -/
structure SUIRetainerBoxWidget where
  PreviousRenderSize : FVector2D
  bEnableUIRetainedRenderingDesire : Bool
  bEnableUIRetainedRendering : Bool
  Phase : Int
  PhaseCount : Int
  RenderOnPhase : Bool
  RenderOnInvalidation : Bool
  bRenderRequested : Bool
  LastTickedFrame : Nat
  RenderingResources : FUIRetainerBoxWidgetRenderingResources
  RootCacheNode : Option Nat
  NodePool : List Nat
  LastUsedCachedNodeIndex : Nat
  ColourSpace : EUIRetainerBoxColourSpace
  deriving DecidableEq

/-! ## Colour space and the render target -/

/-- `SetColourSpace` (lines 278 to 281). -/
def SetColourSpace (w : SUIRetainerBoxWidget) (InColourSpace : EUIRetainerBoxColourSpace) :
    SUIRetainerBoxWidget :=
  { w with ColourSpace := InColourSpace }

/-- The local `bWriteContentInGammaSpace` of `UpdateWidgetRenderer` (line 102). -/
def bWriteContentInGammaSpace (c : EUIRetainerBoxColourSpace) : Bool :=
  c != EUIRetainerBoxColourSpace.Linear

/-- The render-target part of `UpdateWidgetRenderer` (lines 117 to 124): the body of the
`if` runs when `RenderTarget->SRGB == bWriteContentInGammaSpace` (the pointer itself is
never null, see `FUIRetainerBoxWidgetRenderingResources`). -/
def UpdateWidgetRenderer_target (bWrite : Bool) (rt : UTextureRenderTarget2D) :
    UTextureRenderTarget2D :=
  if rt.SRGB == bWrite then
    { rt with TargetGamma := if bWrite then 0 else 1, SRGB := if bWrite then true else false }
  else rt

/-- `UpdateWidgetRenderer` (lines 100 to 125). -/
def UpdateWidgetRenderer (w : SUIRetainerBoxWidget) : SUIRetainerBoxWidget :=
  let bWrite := bWriteContentInGammaSpace w.ColourSpace
  let WidgetRenderer : FWidgetRenderer :=
    match w.RenderingResources.WidgetRenderer with
    | none => { bUseGammaCorrection := bWrite, bPrepassNeeded := true, bClearHitTestGrid := true }
    | some r => r
  let WidgetRenderer := { WidgetRenderer with bUseGammaCorrection := false }
  let WidgetRenderer :=
    { WidgetRenderer with bUseGammaCorrection := if bWrite then true else false }
  let WidgetRenderer := { WidgetRenderer with bPrepassNeeded := false }
  let WidgetRenderer := { WidgetRenderer with bClearHitTestGrid := false }
  { w with RenderingResources :=
      { w.RenderingResources with
          WidgetRenderer := some WidgetRenderer
          RenderTarget := UpdateWidgetRenderer_target bWrite w.RenderingResources.RenderTarget } }

/-! ## Process-wide state -/

/-- Modelled from the spec: `TFrameValue<int32>` comes from the engine header
`Misc/FrameValue.h`. The spec calls it frame-scoped storage: "reading it in a frame that has
not yet set it yields the default". The value is stored with the frame counter of the
assignment. -/
structure TFrameValue where
  FrameSet : Nat
  Value : Option Int
  deriving DecidableEq

/-- The call `TFrameValue::TryGetValue(DefaultValue)` at frame `GFrameCounter`. -/
def TFrameValue.TryGetValue (v : TFrameValue) (GFrameCounter : Nat) (DefaultValue : Int) : Int :=
  match v.Value with
  | some x => if v.FrameSet = GFrameCounter then x else DefaultValue
  | none => DefaultValue

/-- The assignment `TFrameValue::operator=(InValue)` at frame `GFrameCounter`. -/
def TFrameValue.Assign (GFrameCounter : Nat) (InValue : Int) : TFrameValue :=
  { FrameSet := GFrameCounter, Value := some InValue }

/-- Modelled from the spec: `TArray::AddUnique` is engine code; the spec has the box "added
(deduplicated)" to the waiting set. The item is appended unless the array already holds it. -/
def TArray_AddUnique (a : List Nat) (Item : Nat) : List Nat :=
  if Item ∈ a then a else a ++ [Item]

/-- Modelled from the spec: `TArray::Remove` is engine code; the spec has the box "removed"
from the waiting set. Every occurrence of the item is removed. -/
def TArray_Remove (a : List Nat) (Item : Nat) : List Nat :=
  a.filter (fun x => x != Item)

/-- The globals and static members the widget works with (lines 18, 73 to 75), the engine's
`GFrameCounter`, and the heap: `HeapNext` is the address the next `new` returns. The `int32`
counter is an unbounded `Int`: it grows by one per re-render within one frame. -/
structure FGlobals where
  GFrameCounter : Nat
  GEnableUIRetainedRendering : Int
  Shared_WaitingToRender : List Nat
  Shared_MaxRetainerWorkPerFrame : Int
  Shared_RetainerWorkThisFrame : TFrameValue
  HeapNext : Nat
  deriving DecidableEq

/-- `IsRetainedRenderingEnabled` (lines 25 to 28). -/
def IsRetainedRenderingEnabled (g : FGlobals) : Bool :=
  g.GEnableUIRetainedRendering != 0

/-! ## Rendering mode, children and desired size -/

/-- `ShouldBeRenderingOffscreen` (lines 190 to 193). -/
def ShouldBeRenderingOffscreen (g : FGlobals) (w : SUIRetainerBoxWidget) : Bool :=
  w.bEnableUIRetainedRenderingDesire && IsRetainedRenderingEnabled g

/-- `SetRetainedRendering` (lines 218 to 221). -/
def SetRetainedRendering (w : SUIRetainerBoxWidget) (bRetainRendering : Bool) :
    SUIRetainerBoxWidget :=
  { w with bEnableUIRetainedRenderingDesire := bRetainRendering }

/-- `RefreshRenderingMode` (lines 223 to 233); re-binding the window content does not touch
the members kept here. -/
def RefreshRenderingMode (g : FGlobals) (w : SUIRetainerBoxWidget) : SUIRetainerBoxWidget :=
  let bShouldBeRenderingOffscreen := ShouldBeRenderingOffscreen g w
  if w.bEnableUIRetainedRendering != bShouldBeRenderingOffscreen then
    { w with bEnableUIRetainedRendering := bShouldBeRenderingOffscreen }
  else w

/-- `OnRetainerModeChanged` (lines 200 to 204); the layout invalidation is a request to the
host and does not touch the members kept here. -/
def OnRetainerModeChanged (g : FGlobals) (w : SUIRetainerBoxWidget) : SUIRetainerBoxWidget :=
  RefreshRenderingMode g w

/-- A write of `Value` to the console variable `Slate.EnableUIRetainedRendering` (lines 18 to
23). The change callback `OnRetainerModeCVarChanged` (lines 211 to 216) and the registration
of the box on the delegate (lines 176 to 186) exist only under `#if !UE_BUILD_SHIPPING` and
only when the Slate application was initialised at `Construct`; `bNotified` says whether this
box is called back. -/
def EnableUIRetainedRendering_Set (bNotified : Bool) (Value : Int) (g : FGlobals)
    (w : SUIRetainerBoxWidget) : FGlobals × SUIRetainerBoxWidget :=
  let g := { g with GEnableUIRetainedRendering := Value }
  if bNotified then (g, OnRetainerModeChanged g w) else (g, w)

/-- `GetChildren` (lines 283 to 293). -/
def GetChildren (w : SUIRetainerBoxWidget) : FChildren :=
  if w.bEnableUIRetainedRendering then FChildren.EmptyChildSlot else FChildren.ChildSlot

/-- `ComputeDesiredSize` (lines 533 to 543). `ContentDesiredSize` is the value of
`MyWidget->GetDesiredSize()` and `CompoundDesiredSize` the value of
`SCompoundWidget::ComputeDesiredSize(LayoutScaleMuliplier)`. -/
def ComputeDesiredSize (w : SUIRetainerBoxWidget) (ContentDesiredSize CompoundDesiredSize : FVector2D) :
    FVector2D :=
  if w.bEnableUIRetainedRendering then ContentDesiredSize else CompoundDesiredSize

/-! ## Render requests -/

/-- `InvalidateWidget` (lines 318 to 324). -/
def InvalidateWidget (w : SUIRetainerBoxWidget) : SUIRetainerBoxWidget :=
  if w.RenderOnInvalidation then { w with bRenderRequested := true } else w

/-- `SUIRetainerBoxWidget::SetRenderingPhase` (lines 326 to 330). -/
def SetRenderingPhase (w : SUIRetainerBoxWidget) (InPhase InPhaseCount : Int) :
    SUIRetainerBoxWidget :=
  { w with Phase := InPhase, PhaseCount := InPhaseCount }

/-- `RequestRender` (lines 332 to 335). -/
def RequestRender (w : SUIRetainerBoxWidget) : SUIRetainerBoxWidget :=
  { w with bRenderRequested := true }

/-- `OnGlobalInvalidate` (lines 206 to 209). -/
def OnGlobalInvalidate (w : SUIRetainerBoxWidget) : SUIRetainerBoxWidget :=
  RequestRender w

/-! ## The cache-node pool -/

/-- `CreateCacheNode` (lines 300 to 316). When the cursor has reached the end of the pool
ten nodes are allocated with `new` and appended; the node under the cursor is returned and
the cursor advances. An index outside the array is a fault. -/
def CreateCacheNode (g : FGlobals) (w : SUIRetainerBoxWidget) :
    Option (Nat × FGlobals × SUIRetainerBoxWidget) :=
  let grown : FGlobals × List Nat :=
    if w.LastUsedCachedNodeIndex ≥ w.NodePool.length then
      ({ g with HeapNext := g.HeapNext + 10 }, w.NodePool ++ List.range' g.HeapNext 10)
    else (g, w.NodePool)
  match grown.2[w.LastUsedCachedNodeIndex]? with
  | none => none
  | some NewNode =>
    some (NewNode, grown.1,
      { w with NodePool := grown.2, LastUsedCachedNodeIndex := w.LastUsedCachedNodeIndex + 1 })

/-- The nodes returned by `K` consecutive `CreateCacheNode` calls, in call order, with the state
after the last one. -/
def CreateCacheNodes : Nat → FGlobals → SUIRetainerBoxWidget →
    Option (List Nat × FGlobals × SUIRetainerBoxWidget)
  | 0, g, w => some ([], g, w)
  | K + 1, g, w =>
    match CreateCacheNode g w with
    | none => none
    | some (NewNode, g1, w1) =>
      match CreateCacheNodes K g1 w1 with
      | none => none
      | some (Nodes, g2, w2) => some (NewNode :: Nodes, g2, w2)

/-- The pool reset inside `PaintRetainedContent` (lines 398 to 400). -/
def ResetCacheNodePool (w : SUIRetainerBoxWidget) : SUIRetainerBoxWidget :=
  { w with LastUsedCachedNodeIndex := 0, RootCacheNode := none }

/-! ## Painting the retained content -/

/-- The conversion of a signed integer to `uint64`. -/
def toUInt64 (i : Int) : Nat := (i % 2 ^ 64).toNat

/-- `FMath::RoundToInt`, the floor of `x + 1/2`, computed on the numerator and the
denominator of `x` (see `RoundToInt_eq_floor`). -/
def RoundToInt (x : ℚ) : Int := (2 * x.num + x.den) / (2 * x.den)

/-- The conversion of an `int32` to `uint32` (lines 387 and 388). -/
def toUInt32 (i : Int) : Nat := (i % 2 ^ 32).toNat

/-- What the host supplies to one `PaintRetainedContent` call: the render size computed from
the allotted geometry (lines 356 and 357), the answer of
`MyWidget->GetVisibility().IsVisible()`, and the number of cache nodes that `DrawWindow`
requests from the box (through `ILayoutCache::CreateCacheNode`) while it draws the content. -/
structure FPaintInput where
  RenderSize : FVector2D
  bContentVisible : Bool
  DrawWindowCacheNodes : Nat
  deriving DecidableEq

/-- The phase rule (lines 339 to 345): `some true` when line 343 runs, `none` when the
modulo divides by zero. `&&` evaluates the modulo only when the frame differs from
`LastTickedFrame`; both operands of `%` and `==` are converted to `uint64`. -/
def PaintRetainedContent_phaseRule (w : SUIRetainerBoxWidget) (GFrameCounter : Nat) :
    Option Bool :=
  if w.RenderOnPhase then
    if w.LastTickedFrame ≠ GFrameCounter then
      if toUInt64 w.PhaseCount = 0 then none
      else some (GFrameCounter % toUInt64 w.PhaseCount == toUInt64 w.Phase)
    else some false
  else some false

/-- The budget test (lines 347 to 354): whether the call is deferred. -/
def PaintRetainedContent_throttled (g : FGlobals) : Bool :=
  decide (g.Shared_MaxRetainerWorkPerFrame > 0) &&
    decide (g.Shared_RetainerWorkThisFrame.TryGetValue g.GFrameCounter 0 >
      g.Shared_MaxRetainerWorkPerFrame)

/-- The resizing of the render target (lines 409 to 424). -/
def PaintRetainedContent_resize (rt : UTextureRenderTarget2D)
    (RenderTargetWidth RenderTargetHeight : Nat) : UTextureRenderTarget2D :=
  if rt.SurfaceWidth ≠ RenderTargetWidth ∨ rt.SurfaceHeight ≠ RenderTargetHeight then
    if rt.bHasResource && rt.OverrideFormat == EPixelFormat.PF_B8G8R8A8 then
      { rt with SurfaceWidth := RenderTargetWidth, SurfaceHeight := RenderTargetHeight }
    else
      { rt with SurfaceWidth := RenderTargetWidth, SurfaceHeight := RenderTargetHeight,
                OverrideFormat := EPixelFormat.PF_B8G8R8A8, bHasResource := true }
  else rt

/-- The update of the shared counter (lines 381 and 382). -/
def PaintRetainedContent_countWork (g : FGlobals) : FGlobals :=
  let Work := g.Shared_RetainerWorkThisFrame.TryGetValue g.GFrameCounter 0 + 1
  { g with Shared_RetainerWorkThisFrame := TFrameValue.Assign g.GFrameCounter Work }

/-- The drawing of the content (lines 441 to 458): the root cache node is taken from the
pool, `DrawWindow` takes `DrawWindowCacheNodes` further nodes for the widgets it draws, the
request flag is cleared and the box leaves the waiting array. -/
def PaintRetainedContent_draw (This : Nat) (DrawWindowCacheNodes : Nat) (g : FGlobals)
    (w : SUIRetainerBoxWidget) : Option (Bool × FGlobals × SUIRetainerBoxWidget) :=
  match CreateCacheNode g w with
  | none => none
  | some (NewNode, g, w) =>
    match CreateCacheNodes DrawWindowCacheNodes g { w with RootCacheNode := some NewNode } with
    | none => none
    | some (_, g, w) =>
      some (true,
        { g with Shared_WaitingToRender := TArray_Remove g.Shared_WaitingToRender This },
        { w with bRenderRequested := false })

/-- The render target after lines 409 to 424, stored back into the box. -/
def PaintRetainedContent_resized (w : SUIRetainerBoxWidget)
    (RenderTargetWidth RenderTargetHeight : Nat) : SUIRetainerBoxWidget :=
  let RenderTarget := PaintRetainedContent_resize w.RenderingResources.RenderTarget
    RenderTargetWidth RenderTargetHeight
  { w with RenderingResources := { w.RenderingResources with RenderTarget := RenderTarget } }

/-- The body of `if (bRenderRequested)` (lines 365 to 461). The counter, `LastTickedFrame`
and the pool reset come before the tests of size and visibility. -/
def PaintRetainedContent_render (This : Nat) (a : FPaintInput) (g : FGlobals)
    (w : SUIRetainerBoxWidget) : Option (Bool × FGlobals × SUIRetainerBoxWidget) :=
  let g := PaintRetainedContent_countWork g
  let w := { w with LastTickedFrame := g.GFrameCounter }
  let RenderTargetWidth := toUInt32 (RoundToInt a.RenderSize.X)
  let RenderTargetHeight := toUInt32 (RoundToInt a.RenderSize.Y)
  let w := ResetCacheNodePool w
  if RenderTargetWidth ≠ 0 ∧ RenderTargetHeight ≠ 0 then
    if a.bContentVisible then
      PaintRetainedContent_draw This a.DrawWindowCacheNodes g
        (PaintRetainedContent_resized w RenderTargetWidth RenderTargetHeight)
    else some (false, g, w)
  else some (false, g, w)

/-- `PaintRetainedContent` (lines 337 to 464) for the box at address `This`. -/
def PaintRetainedContent (This : Nat) (a : FPaintInput) (g : FGlobals)
    (w : SUIRetainerBoxWidget) : Option (Bool × FGlobals × SUIRetainerBoxWidget) :=
  match PaintRetainedContent_phaseRule w g.GFrameCounter with
  | none => none
  | some bPhase =>
    let w := if bPhase then { w with bRenderRequested := true } else w
    if PaintRetainedContent_throttled g then
      some (false,
        { g with Shared_WaitingToRender := TArray_AddUnique g.Shared_WaitingToRender This }, w)
    else
      let w :=
        if a.RenderSize ≠ w.PreviousRenderSize then
          { w with PreviousRenderSize := a.RenderSize, bRenderRequested := true }
        else w
      if w.bRenderRequested then PaintRetainedContent_render This a g w
      else some (false, g, w)

/-! ## Scenarios built from the operations above -/

/-- The colour-space round trip: linear, gamma-encoded, linear again, with
`UpdateWidgetRenderer` after each `SetColourSpace`. -/
def ColourSpaceRoundTrip (w : SUIRetainerBoxWidget) : SUIRetainerBoxWidget :=
  let w := UpdateWidgetRenderer (SetColourSpace w EUIRetainerBoxColourSpace.Linear)
  let w := UpdateWidgetRenderer (SetColourSpace w EUIRetainerBoxColourSpace.Gamma)
  UpdateWidgetRenderer (SetColourSpace w EUIRetainerBoxColourSpace.Linear)

/-- A render target as `Construct` configures it (lines 133 to 136), with the given gamma
settings and no surface yet. -/
def exampleRenderTarget (SRGB : Bool) (TargetGamma : ℚ) : UTextureRenderTarget2D :=
  { SRGB := SRGB, TargetGamma := TargetGamma, SurfaceWidth := 0, SurfaceHeight := 0,
    OverrideFormat := EPixelFormat.PF_B8G8R8A8, bHasResource := false }

/-- A box in the state `Construct` leaves (lines 146 to 165) once retained rendering is
switched on, for the given render target, colour space and phase settings. -/
def exampleWidget (rt : UTextureRenderTarget2D) (c : EUIRetainerBoxColourSpace)
    (RenderOnPhase : Bool) (Phase PhaseCount : Int) : SUIRetainerBoxWidget :=
  { PreviousRenderSize := ⟨0, 0⟩, bEnableUIRetainedRenderingDesire := true,
    bEnableUIRetainedRendering := true, Phase := Phase, PhaseCount := PhaseCount,
    RenderOnPhase := RenderOnPhase, RenderOnInvalidation := false, bRenderRequested := true,
    LastTickedFrame := 0,
    RenderingResources :=
      { WidgetRenderer := some
          { bUseGammaCorrection := bWriteContentInGammaSpace c, bPrepassNeeded := false,
            bClearHitTestGrid := false },
        RenderTarget := rt, bDynamicEffect := false },
    RootCacheNode := none, NodePool := [], LastUsedCachedNodeIndex := 0, ColourSpace := c }

/-- Globals at frame `GFrameCounter` with budget `Max`, nothing rendered yet in this frame,
nobody waiting, retained rendering enabled. -/
def exampleGlobals (GFrameCounter : Nat) (Max : Int) : FGlobals :=
  { GFrameCounter := GFrameCounter, GEnableUIRetainedRendering := 1,
    Shared_WaitingToRender := [], Shared_MaxRetainerWorkPerFrame := Max,
    Shared_RetainerWorkThisFrame := { FrameSet := 0, Value := none }, HeapNext := 1000 }

/-- The heap invariant of the node pool: its entries come from distinct `new` calls and are
never freed, so they are pairwise distinct and a later `new` cannot return one of them. -/
def NodePoolWellFormed (g : FGlobals) (w : SUIRetainerBoxWidget) : Prop :=
  w.NodePool.Nodup ∧ ∀ p ∈ w.NodePool, p < g.HeapNext

instance (g : FGlobals) (w : SUIRetainerBoxWidget) : Decidable (NodePoolWellFormed g w) := by
  unfold NodePoolWellFormed
  infer_instance

/-- Consecutive `PaintRetainedContent` calls on one box, one per input, with nothing else
running in between: globals and box pass from each call to the next. The results are in call
order. -/
def PaintRetainedContent_repeat (This : Nat) :
    List FPaintInput → FGlobals → SUIRetainerBoxWidget →
      Option (List Bool × FGlobals × SUIRetainerBoxWidget)
  | [], g, w => some ([], g, w)
  | a :: rest, g, w =>
    match PaintRetainedContent This a g w with
    | none => none
    | some (r, g1, w1) =>
      match PaintRetainedContent_repeat This rest g1 w1 with
      | none => none
      | some (rs, g2, w2) => some (r :: rs, g2, w2)

/-- One frame in which every box of the list (address, paint input, state) is painted once, in
list order; the globals pass from each call to the next. The results are in call order. -/
def PaintBoxes : List (Nat × FPaintInput × SUIRetainerBoxWidget) → FGlobals →
    Option (List Bool × FGlobals)
  | [], g => some ([], g)
  | (This, a, w) :: rest, g =>
    match PaintRetainedContent This a g w with
    | none => none
    | some (r, g1, _) =>
      match PaintBoxes rest g1 with
      | none => none
      | some (rs, g2) => some (r :: rs, g2)

/-- A call that the host makes on one box. A `Paint` call carries the globals as they are
when the call starts: between two calls on this box the frame may advance and other boxes may
paint. -/
inductive FWidgetCall where
  | Paint (a : FPaintInput) (g : FGlobals)
  | InvalidateWidget
  | RequestRender
  | OnGlobalInvalidate
  | SetRenderingPhase (InPhase InPhaseCount : Int)

/-- A sequence of calls on the box at `This`. The result lists, for the `Paint` calls in call
order, the frame counter of the call and what `PaintRetainedContent` returned. -/
def RunCalls (This : Nat) : List FWidgetCall → SUIRetainerBoxWidget →
    Option (List (Nat × Bool) × SUIRetainerBoxWidget)
  | [], w => some ([], w)
  | FWidgetCall.Paint a g :: rest, w =>
    match PaintRetainedContent This a g w with
    | none => none
    | some (r, _, w1) =>
      match RunCalls This rest w1 with
      | none => none
      | some (rs, w2) => some ((g.GFrameCounter, r) :: rs, w2)
  | FWidgetCall.InvalidateWidget :: rest, w => RunCalls This rest (InvalidateWidget w)
  | FWidgetCall.RequestRender :: rest, w => RunCalls This rest (RequestRender w)
  | FWidgetCall.OnGlobalInvalidate :: rest, w => RunCalls This rest (OnGlobalInvalidate w)
  | FWidgetCall.SetRenderingPhase InPhase InPhaseCount :: rest, w =>
    RunCalls This rest (SetRenderingPhase w InPhase InPhaseCount)

/-- A paint input with the given render size, visible content and three cache nodes taken by
`DrawWindow`. -/
def examplePaintInput (X Y : ℚ) : FPaintInput :=
  { RenderSize := ⟨X, Y⟩, bContentVisible := true, DrawWindowCacheNodes := 3 }

/-- Globals at frame `GFrameCounter` with budget `Max` after `Work` re-renders in this
frame. -/
def exampleGlobalsWorked (GFrameCounter : Nat) (Max Work : Int) : FGlobals :=
  { exampleGlobals GFrameCounter Max with
    Shared_RetainerWorkThisFrame := TFrameValue.Assign GFrameCounter Work }

/-- The outcome of the first paint call on `exampleWidget` (phase 2 of 4, request pending from
`Construct`): frame 5, budget 1, size 10 x 10, as box 1. -/
def examplePainted : Bool × FGlobals × SUIRetainerBoxWidget :=
  (PaintRetainedContent 1 (examplePaintInput 10 10) (exampleGlobals 5 1)
    (exampleWidget (exampleRenderTarget true 0) EUIRetainerBoxColourSpace.Linear true 2 4)).getD
    (false, exampleGlobals 5 1,
      exampleWidget (exampleRenderTarget true 0) EUIRetainerBoxColourSpace.Linear true 2 4)

/-- The calls of a quiet stretch: a `Paint` call with render size `s` and content visibility
`v` at a frame where the phase condition of box `w` is not met (render-on-phase is off, or
the modulo is defined and differs from the phase), or an `InvalidateWidget` callback. There is
no `RequestRender`, no global invalidation and no change of the phase settings. -/
def QuietCall (s : FVector2D) (v : Bool) (w : SUIRetainerBoxWidget) : FWidgetCall → Prop
  | FWidgetCall.Paint a g =>
    a.RenderSize = s ∧ a.bContentVisible = v ∧
      (w.RenderOnPhase = false ∨
        (toUInt64 w.PhaseCount ≠ 0 ∧
          g.GFrameCounter % toUInt64 w.PhaseCount ≠ toUInt64 w.Phase))
  | FWidgetCall.InvalidateWidget => True
  | FWidgetCall.RequestRender => False
  | FWidgetCall.OnGlobalInvalidate => False
  | FWidgetCall.SetRenderingPhase _ _ => False

instance (s : FVector2D) (v : Bool) (w : SUIRetainerBoxWidget) (c : FWidgetCall) :
    Decidable (QuietCall s v w c) := by
  cases c <;> unfold QuietCall <;> infer_instance

/-- A box of a `PaintBoxes` frame that is due to re-render: its request flag is set, its
content is visible, its rounded render width and height are non-zero, and the modulo of its
phase rule is defined. -/
def RequestsRender (b : Nat × FPaintInput × SUIRetainerBoxWidget) : Prop :=
  b.2.2.bRenderRequested = true ∧ b.2.1.bContentVisible = true ∧
    toUInt32 (RoundToInt b.2.1.RenderSize.X) ≠ 0 ∧
    toUInt32 (RoundToInt b.2.1.RenderSize.Y) ≠ 0 ∧
    (b.2.2.RenderOnPhase = true → toUInt64 b.2.2.PhaseCount ≠ 0)

instance (b : Nat × FPaintInput × SUIRetainerBoxWidget) : Decidable (RequestsRender b) := by
  unfold RequestsRender
  infer_instance

/-! ## Drawing the cached surface -/

/-- An `FLinearColor`: four floats. -/
structure FLinearColor where
  R : ℚ
  G : ℚ
  B : ℚ
  A : ℚ
  deriving DecidableEq

/-- The product `FLinearColor::operator*(const FLinearColor&)`, component by component. -/
def FLinearColor.Mul (a b : FLinearColor) : FLinearColor :=
  { R := a.R * b.R, G := a.G * b.G, B := a.B * b.B, A := a.A * b.A }

/-- The product `FLinearColor::operator*(float)`: all four components are scaled. -/
def FLinearColor.Scale (c : FLinearColor) (Scalar : ℚ) : FLinearColor :=
  { R := c.R * Scalar, G := c.G * Scalar, B := c.B * Scalar, A := c.A * Scalar }

/-- The quotient `FLinearColor::operator/(float)`: all four components are divided. -/
def FLinearColor.Div (c : FLinearColor) (Scalar : ℚ) : FLinearColor :=
  { R := c.R / Scalar, G := c.G / Scalar, B := c.B / Scalar, A := c.A / Scalar }

/-- The flags of `ESlateDrawEffect` that `OnPaint` uses; `None` has both clear. -/
structure ESlateDrawEffect where
  bPreMultipliedAlpha : Bool
  bNoGamma : Bool
  deriving DecidableEq

/-- The box element that `FSlateDrawElement::MakeBox` adds (lines 499 to 512): its draw
effects and its tint. -/
structure FSlateDrawElement where
  DrawEffects : ESlateDrawEffect
  Tint : FLinearColor
  deriving DecidableEq

/-- What the host supplies to one `OnPaint` call: the input of `PaintRetainedContent`,
whether `MyWidget` is a valid pointer, and the three factors of the tint (line 486):
`InWidgetStyle.GetColorAndOpacityTint()`, `ColorAndOpacity.Get()` and
`SurfaceBrush.GetTint(InWidgetStyle)`. -/
structure FOnPaintInput where
  Paint : FPaintInput
  bMyWidgetValid : Bool
  WidgetStyleTint : FLinearColor
  ColorAndOpacity : FLinearColor
  BrushTint : FLinearColor
  deriving DecidableEq

/-- What one `OnPaint` call did: whether it fell through to `SCompoundWidget::OnPaint`
(line 530), what `PaintRetainedContent` returned, the box it drew if any, and whether hit-test
geometry was recorded (line 514). -/
structure FOnPaintOutput where
  bCompoundOnPaint : Bool
  bNewFramePainted : Bool
  Box : Option FSlateDrawElement
  bRecordHittestGeometry : Bool
  deriving DecidableEq

/-- `IsAnythingVisibleToRender` (lines 195 to 198). -/
def IsAnythingVisibleToRender (bMyWidgetValid bContentVisible : Bool) : Bool :=
  bMyWidgetValid && bContentVisible

/-- The local `ComputedColorAndOpacity` of `OnPaint` (line 486). -/
def OnPaint_ComputedColorAndOpacity (i : FOnPaintInput) : FLinearColor :=
  (i.WidgetStyleTint.Mul i.ColorAndOpacity).Mul i.BrushTint

/-- The box of lines 486 to 512 for colour space `c` and computed tint `Computed`. -/
def OnPaint_MakeBox (c : EUIRetainerBoxColourSpace) (Computed : FLinearColor) :
    FSlateDrawElement :=
  let AdjustedColor := Computed.Div Computed.A
  let PremultipliedColorAndOpacity := Computed.Scale Computed.A
  { DrawEffects :=
      if c ≠ EUIRetainerBoxColourSpace.Linear then
        { bPreMultipliedAlpha := true, bNoGamma := true }
      else { bPreMultipliedAlpha := false, bNoGamma := false },
    Tint :=
      if c ≠ EUIRetainerBoxColourSpace.Linear then
        { R := AdjustedColor.R, G := AdjustedColor.G, B := AdjustedColor.B, A := Computed.A }
      else
        { R := PremultipliedColorAndOpacity.R, G := PremultipliedColorAndOpacity.G,
          B := PremultipliedColorAndOpacity.B, A := PremultipliedColorAndOpacity.A } }

/-- `OnPaint` (lines 466 to 531) for the box at address `This`. -/
def OnPaint (This : Nat) (i : FOnPaintInput) (g : FGlobals) (w : SUIRetainerBoxWidget) :
    Option (FOnPaintOutput × FGlobals × SUIRetainerBoxWidget) :=
  let w := RefreshRenderingMode g w
  if w.bEnableUIRetainedRendering && IsAnythingVisibleToRender i.bMyWidgetValid
      i.Paint.bContentVisible then
    match PaintRetainedContent This i.Paint g w with
    | none => none
    | some (bNewFramePainted, g, w) =>
      let RenderTarget := w.RenderingResources.RenderTarget
      if RenderTarget.SurfaceWidth ≥ 1 ∧ RenderTarget.SurfaceHeight ≥ 1 then
        some ({ bCompoundOnPaint := false, bNewFramePainted := bNewFramePainted,
                Box := some (OnPaint_MakeBox w.ColourSpace (OnPaint_ComputedColorAndOpacity i)),
                bRecordHittestGeometry := w.RootCacheNode.isSome }, g, w)
      else
        some ({ bCompoundOnPaint := false, bNewFramePainted := bNewFramePainted,
                Box := none, bRecordHittestGeometry := false }, g, w)
  else
    some ({ bCompoundOnPaint := true, bNewFramePainted := false, Box := none,
            bRecordHittestGeometry := false }, g, w)

/-- The white tint, the neutral factor of `FLinearColor::Mul`. -/
def FLinearColor.White : FLinearColor := { R := 1, G := 1, B := 1, A := 1 }

/-- An `OnPaint` input with valid, visible content of size 10 x 10 whose computed tint is
`Tint` (the other two factors are white). -/
def exampleOnPaintInput (Tint : FLinearColor) : FOnPaintInput :=
  { Paint := examplePaintInput 10 10, bMyWidgetValid := true, WidgetStyleTint := Tint,
    ColorAndOpacity := FLinearColor.White, BrushTint := FLinearColor.White }
/-- The computed tint of the examples: a half-transparent colour. -/
def exampleTint : FLinearColor := { R := 1 / 4, G := 1 / 2, B := 1 / 2, A := 1 / 2 }

/-- The outcome of the first `OnPaint` call on `exampleWidget` with colour space `c` (no phase
rendering), as box 1 in frame 5 with budget 1, for the computed tint `exampleTint`. -/
def exampleOnPainted (c : EUIRetainerBoxColourSpace) :
    FOnPaintOutput × FGlobals × SUIRetainerBoxWidget :=
  (OnPaint 1 (exampleOnPaintInput exampleTint) (exampleGlobals 5 1)
    (exampleWidget (exampleRenderTarget true 0) c false 0 1)).getD
    ({ bCompoundOnPaint := true, bNewFramePainted := false, Box := none,
       bRecordHittestGeometry := false }, exampleGlobals 5 1,
      exampleWidget (exampleRenderTarget true 0) c false 0 1)

/-! ## The panel `UUIRetainerBox` -/

/-- The arguments of `SUIRetainerBoxWidget::Construct` that it reads (header lines 35 to 51,
source lines 150 to 154). -/
structure FArguments where
  RenderOnPhase : Bool
  RenderOnInvalidation : Bool
  Phase : Int
  PhaseCount : Int
  deriving DecidableEq

/-- `SUIRetainerBoxWidget::Construct` (lines 127 to 188). `NewRenderTarget` is the object that
`NewObject<UTextureRenderTarget2D>()` returns and `Uninitialized` the value that the member
`PreviousRenderSize`, which `Construct` does not assign, happens to hold. The colour space is
the member's default (header line 148); `UpdateWidgetRenderer` (line 146) reads nothing that
the later assignments change. -/
def Construct (InArgs : FArguments) (NewRenderTarget : UTextureRenderTarget2D)
    (Uninitialized : FVector2D) : SUIRetainerBoxWidget :=
  UpdateWidgetRenderer
    { PreviousRenderSize := Uninitialized,
      bEnableUIRetainedRenderingDesire := true,
      bEnableUIRetainedRendering := false,
      Phase := InArgs.Phase,
      PhaseCount := InArgs.PhaseCount,
      RenderOnPhase := InArgs.RenderOnPhase,
      RenderOnInvalidation := InArgs.RenderOnInvalidation,
      bRenderRequested := true,
      LastTickedFrame := 0,
      RenderingResources :=
        { WidgetRenderer := none,
          RenderTarget := { NewRenderTarget with OverrideFormat := EPixelFormat.PF_B8G8R8A8 },
          bDynamicEffect := false },
      RootCacheNode := none,
      NodePool := [],
      LastUsedCachedNodeIndex := 0,
      ColourSpace := EUIRetainerBoxColourSpace.Linear }

/-- Modelled from the spec: the class `UUIRetainerBox` is declared in `UIRetainerBox.h`, which
is not part of the sources; the spec calls it the host panel adapter that exposes the box's
controls (phase, invalidation mode, colour space). These are the members that
`UIRetainerBox.cpp` reads and writes; `MyRetainerWidget` is `none` while the pointer is not
valid. -/
structure UUIRetainerBox where
  Phase : Int
  PhaseCount : Int
  RenderOnPhase : Bool
  RenderOnInvalidation : Bool
  ColourSpace : EUIRetainerBoxColourSpace
  MyRetainerWidget : Option SUIRetainerBoxWidget
  deriving DecidableEq

/-- The constructor of `UUIRetainerBox` (`UIRetainerBox.cpp` lines 14 to 23); the colour space
is the default of the header. -/
def UUIRetainerBox_UUIRetainerBox (ColourSpace : EUIRetainerBoxColourSpace) : UUIRetainerBox :=
  { Phase := 0, PhaseCount := 1, RenderOnPhase := true, RenderOnInvalidation := false,
    ColourSpace := ColourSpace, MyRetainerWidget := none }

/-- `UUIRetainerBox::SetRenderingPhase` (`UIRetainerBox.cpp` lines 25 to 39). -/
def UUIRetainerBox_SetRenderingPhase (p : UUIRetainerBox)
    (PhaseToRenderOn TotalRenderingPhases : Int) : UUIRetainerBox :=
  let p := { p with Phase := PhaseToRenderOn }
  let p := { p with PhaseCount := TotalRenderingPhases }
  let p := if p.PhaseCount < 1 then { p with PhaseCount := 1 } else p
  match p.MyRetainerWidget with
  | some w => { p with MyRetainerWidget := some (SetRenderingPhase w p.Phase p.PhaseCount) }
  | none => p

/-- `UUIRetainerBox::RequestRender` (`UIRetainerBox.cpp` lines 41 to 47). -/
def UUIRetainerBox_RequestRender (p : UUIRetainerBox) : UUIRetainerBox :=
  match p.MyRetainerWidget with
  | some w => { p with MyRetainerWidget := some (RequestRender w) }
  | none => p

/-- `UUIRetainerBox::SetSetColourSpace` (`UIRetainerBox.cpp` lines 68 to 75). -/
def UUIRetainerBox_SetSetColourSpace (p : UUIRetainerBox)
    (InColourSpace : EUIRetainerBoxColourSpace) : UUIRetainerBox :=
  let p := { p with ColourSpace := InColourSpace }
  match p.MyRetainerWidget with
  | some w => { p with MyRetainerWidget := some (SetColourSpace w p.ColourSpace) }
  | none => p

/-- `UUIRetainerBox::ReleaseSlateResources` (`UIRetainerBox.cpp` lines 86 to 91). -/
def UUIRetainerBox_ReleaseSlateResources (p : UUIRetainerBox) : UUIRetainerBox :=
  { p with MyRetainerWidget := none }

/-- `UUIRetainerBox::RebuildWidget` (`UIRetainerBox.cpp` lines 93 to 114); `bDesignTime` is
the answer of `IsDesignTime()`. -/
def UUIRetainerBox_RebuildWidget (p : UUIRetainerBox) (bDesignTime : Bool)
    (NewRenderTarget : UTextureRenderTarget2D) (Uninitialized : FVector2D) : UUIRetainerBox :=
  let w := Construct
    { RenderOnPhase := p.RenderOnPhase, RenderOnInvalidation := p.RenderOnInvalidation,
      Phase := p.Phase, PhaseCount := p.PhaseCount } NewRenderTarget Uninitialized
  let w := SetRetainedRendering w (if bDesignTime then false else true)
  { p with MyRetainerWidget := some w }

/-- A call on the panel, or a paint of the box that the panel owns. -/
inductive FPanelCall where
  | SetRenderingPhase (PhaseToRenderOn TotalRenderingPhases : Int)
  | RequestRender
  | SetSetColourSpace (InColourSpace : EUIRetainerBoxColourSpace)
  | ReleaseSlateResources
  | RebuildWidget (bDesignTime : Bool) (NewRenderTarget : UTextureRenderTarget2D)
      (Uninitialized : FVector2D)
  | Paint (a : FPaintInput) (g : FGlobals)

/-- A sequence of calls on a panel whose box, when it has one, is at address `This`. The
result is `none` when a `PaintRetainedContent` call faults. A `Paint` call without a box does
nothing. -/
def RunPanelCalls (This : Nat) : List FPanelCall → UUIRetainerBox → Option UUIRetainerBox
  | [], p => some p
  | FPanelCall.SetRenderingPhase a b :: rest, p =>
    RunPanelCalls This rest (UUIRetainerBox_SetRenderingPhase p a b)
  | FPanelCall.RequestRender :: rest, p =>
    RunPanelCalls This rest (UUIRetainerBox_RequestRender p)
  | FPanelCall.SetSetColourSpace c :: rest, p =>
    RunPanelCalls This rest (UUIRetainerBox_SetSetColourSpace p c)
  | FPanelCall.ReleaseSlateResources :: rest, p =>
    RunPanelCalls This rest (UUIRetainerBox_ReleaseSlateResources p)
  | FPanelCall.RebuildWidget d rt u :: rest, p =>
    RunPanelCalls This rest (UUIRetainerBox_RebuildWidget p d rt u)
  | FPanelCall.Paint a g :: rest, p =>
    match p.MyRetainerWidget with
    | none => RunPanelCalls This rest p
    | some w =>
      match PaintRetainedContent This a g w with
      | none => none
      | some (_, _, w1) => RunPanelCalls This rest { p with MyRetainerWidget := some w1 }

/-- The arguments of a `SetRenderingPhase` call are `int32` values. -/
def FPanelCall.ArgsInt32 : FPanelCall → Prop
  | FPanelCall.SetRenderingPhase a b =>
    (-2 ^ 31 ≤ a ∧ a < 2 ^ 31) ∧ (-2 ^ 31 ≤ b ∧ b < 2 ^ 31)
  | _ => True

instance (c : FPanelCall) : Decidable c.ArgsInt32 := by
  cases c <;> unfold FPanelCall.ArgsInt32 <;> infer_instance

/-- The invariant of the panel: its phase count is a positive `int32`, and its box, when it
has one, holds the same phase count. -/
def PanelPhaseCountOk (p : UUIRetainerBox) : Prop :=
  1 ≤ p.PhaseCount ∧ p.PhaseCount < 2 ^ 31 ∧
    match p.MyRetainerWidget with
    | some w => w.PhaseCount = p.PhaseCount
    | none => True

instance (p : UUIRetainerBox) : Decidable (PanelPhaseCountOk p) := by
  unfold PanelPhaseCountOk
  cases p.MyRetainerWidget <;> infer_instance

/-! ## Basic facts -/

theorem RoundToInt_eq_floor (x : ℚ) : RoundToInt x = ⌊x + 1 / 2⌋ := by
  unfold RoundToInt
  have h2 : (2 * (x.den : ℤ)) = ((2 * x.den : ℕ) : ℤ) := by push_cast; ring
  rw [h2, ← Rat.floor_intCast_div_natCast]
  congr 1
  have hd : (x.den : ℚ) ≠ 0 := by exact_mod_cast x.den_ne_zero
  have hn : (x.num : ℚ) = x * x.den := (Rat.mul_den_eq_num x).symm
  push_cast
  field_simp
  rw [hn]
  ring

/-! ## The render target under `UpdateWidgetRenderer` -/

theorem UpdateWidgetRenderer_RenderTarget (w : SUIRetainerBoxWidget) :
    (UpdateWidgetRenderer w).RenderingResources.RenderTarget =
      UpdateWidgetRenderer_target (bWriteContentInGammaSpace w.ColourSpace)
        w.RenderingResources.RenderTarget := rfl

/-- What the code does to the target: the sRGB flag is never changed, and target gamma is
overwritten exactly when the flag already equals `bWriteContentInGammaSpace`. -/
theorem UpdateWidgetRenderer_target_eq (b : Bool) (rt : UTextureRenderTarget2D) :
    UpdateWidgetRenderer_target b rt =
      if rt.SRGB = b then { rt with TargetGamma := if b then 0 else 1 } else rt := by
  unfold UpdateWidgetRenderer_target
  cases b <;> cases h : rt.SRGB <;> simp [h]

/-! ## C10: when `UpdateWidgetRenderer` writes the render target -/

/-- C10, the code at the failing input. The box is configured gamma-encoded and the render
target has the sRGB flag clear and target gamma 2, so the flag disagrees with the
configuration: `UpdateWidgetRenderer` leaves the target as it is (sRGB stays clear, gamma
stays 2) instead of setting sRGB and gamma 0. On the linear box with the same target the flag
agrees, and target gamma is overwritten with 1. -/
theorem C10_UpdateWidgetRenderer_condition_inverted :
    (exampleRenderTarget false 2).SRGB ≠
        bWriteContentInGammaSpace EUIRetainerBoxColourSpace.Gamma ∧
      (UpdateWidgetRenderer (exampleWidget (exampleRenderTarget false 2)
          EUIRetainerBoxColourSpace.Gamma false 0 1)).RenderingResources.RenderTarget =
        exampleRenderTarget false 2 ∧
      (exampleRenderTarget false 2).SRGB =
        bWriteContentInGammaSpace EUIRetainerBoxColourSpace.Linear ∧
      (UpdateWidgetRenderer (exampleWidget (exampleRenderTarget false 2)
          EUIRetainerBoxColourSpace.Linear false 0 1)).RenderingResources.RenderTarget =
        exampleRenderTarget false 1 := by
  decide

/-! ## C9: the colour-space round trip -/

/-- The round trip never changes the sRGB flag: no call of `UpdateWidgetRenderer` does. -/
theorem ColourSpaceRoundTrip_SRGB (w : SUIRetainerBoxWidget) :
    (ColourSpaceRoundTrip w).RenderingResources.RenderTarget.SRGB =
      w.RenderingResources.RenderTarget.SRGB := by
  obtain ⟨p, b1, b2, b3, b4, b5, b6, b7, b8, ⟨r, rt, e⟩, n, l, i, c⟩ := w
  obtain ⟨s, t, sw, sh, f, hr⟩ := rt
  simp only [ColourSpaceRoundTrip, SetColourSpace, UpdateWidgetRenderer_RenderTarget,
    UpdateWidgetRenderer_target_eq, bWriteContentInGammaSpace, UpdateWidgetRenderer]
  cases s <;> simp

/-- Outside the premise of C9: a linear box whose render target still has the sRGB flag set
is not synchronized, because the guard of line 118 skips the update exactly when the flag
disagrees (see C10). On such a target a gamma that `UpdateWidgetRenderer` did not write (here
2) is replaced by 0 in the gamma-encoded step and stays 0. -/
theorem ColourSpaceRoundTrip_flag_disagrees :
    (exampleRenderTarget true 2).SRGB ≠
        bWriteContentInGammaSpace EUIRetainerBoxColourSpace.Linear ∧
      (UpdateWidgetRenderer (exampleWidget (exampleRenderTarget true 2)
          EUIRetainerBoxColourSpace.Linear false 0 1)).RenderingResources.RenderTarget =
        exampleRenderTarget true 2 ∧
      (ColourSpaceRoundTrip (exampleWidget (exampleRenderTarget true 2)
          EUIRetainerBoxColourSpace.Linear false 0 1)).RenderingResources.RenderTarget =
        exampleRenderTarget true 0 := by
  decide

/-! ## C8: switching retained rendering off -/

/-- C8 fails as stated: the box is retaining and the flag goes from 1 to 0 without a change
notification (a shipping build). The very next `GetChildren` still returns the empty child
slot and `ComputeDesiredSize` still returns the content's desired size. -/
theorem C8_flag_off_counterexample :
    IsRetainedRenderingEnabled (exampleGlobals 5 0) = true ∧
      (exampleWidget (exampleRenderTarget true 0)
        EUIRetainerBoxColourSpace.Linear true 0 1).bEnableUIRetainedRendering = true ∧
      IsRetainedRenderingEnabled (EnableUIRetainedRendering_Set false 0 (exampleGlobals 5 0)
        (exampleWidget (exampleRenderTarget true 0)
          EUIRetainerBoxColourSpace.Linear true 0 1)).1 = false ∧
      GetChildren (EnableUIRetainedRendering_Set false 0 (exampleGlobals 5 0)
        (exampleWidget (exampleRenderTarget true 0)
          EUIRetainerBoxColourSpace.Linear true 0 1)).2 = FChildren.EmptyChildSlot ∧
      ComputeDesiredSize (EnableUIRetainedRendering_Set false 0 (exampleGlobals 5 0)
        (exampleWidget (exampleRenderTarget true 0)
          EUIRetainerBoxColourSpace.Linear true 0 1)).2 ⟨30, 40⟩ ⟨1, 2⟩ = ⟨30, 40⟩ := by
  decide

/-- C8 as amended: when the flag goes to disabled, `GetChildren` returns the normal one-child
set and `ComputeDesiredSize` the default compound-widget size from the moment
`RefreshRenderingMode` has run on the box after the change: directly, or through the change
notification `OnRetainerModeChanged` that accompanies the write of the console variable. -/
theorem C8_flag_off_amended (g : FGlobals) (w : SUIRetainerBoxWidget)
    (ContentDesiredSize CompoundDesiredSize : FVector2D) :
    (GetChildren (RefreshRenderingMode { g with GEnableUIRetainedRendering := 0 } w) =
        FChildren.ChildSlot ∧
      ComputeDesiredSize (RefreshRenderingMode { g with GEnableUIRetainedRendering := 0 } w)
        ContentDesiredSize CompoundDesiredSize = CompoundDesiredSize) ∧
    (GetChildren (EnableUIRetainedRendering_Set true 0 g w).2 = FChildren.ChildSlot ∧
      ComputeDesiredSize (EnableUIRetainedRendering_Set true 0 g w).2
        ContentDesiredSize CompoundDesiredSize = CompoundDesiredSize) := by
  have h : (RefreshRenderingMode { g with GEnableUIRetainedRendering := 0 } w
      ).bEnableUIRetainedRendering = false := by
    unfold RefreshRenderingMode ShouldBeRenderingOffscreen IsRetainedRenderingEnabled
    cases hw : w.bEnableUIRetainedRendering <;> simp [hw]
  refine ⟨?_, ?_⟩ <;>
    simp [GetChildren, ComputeDesiredSize, EnableUIRetainedRendering_Set,
      OnRetainerModeChanged, h]

/-! ## C6 and C7: the cache-node pool -/

theorem CreateCacheNode_spec (g : FGlobals) (w : SUIRetainerBoxWidget)
    (hc : w.LastUsedCachedNodeIndex ≤ w.NodePool.length) :
    ∃ NewNode g1 w1, CreateCacheNode g w = some (NewNode, g1, w1) ∧
      w1.NodePool[w.LastUsedCachedNodeIndex]? = some NewNode ∧
      w1.LastUsedCachedNodeIndex = w.LastUsedCachedNodeIndex + 1 ∧
      w1.LastUsedCachedNodeIndex ≤ w1.NodePool.length ∧
      (∃ t, w1.NodePool = w.NodePool ++ t) ∧
      (w.LastUsedCachedNodeIndex < w.NodePool.length → w1.NodePool = w.NodePool ∧ g1 = g) ∧
      (NodePoolWellFormed g w → NodePoolWellFormed g1 w1) := by
  by_cases h : w.LastUsedCachedNodeIndex ≥ w.NodePool.length
  · have hEq : w.LastUsedCachedNodeIndex = w.NodePool.length := le_antisymm hc h
    have hget : (w.NodePool ++ List.range' g.HeapNext 10)[w.LastUsedCachedNodeIndex]? =
        some g.HeapNext := by
      rw [hEq, List.getElem?_append_right (le_refl _)]
      simp [List.range']
    refine ⟨g.HeapNext, { g with HeapNext := g.HeapNext + 10 },
      { w with NodePool := w.NodePool ++ List.range' g.HeapNext 10,
               LastUsedCachedNodeIndex := w.LastUsedCachedNodeIndex + 1 }, ?_, ?_, rfl, ?_,
      ⟨_, rfl⟩, ?_, ?_⟩
    · simp only [CreateCacheNode, h, if_true, hget]
    · exact hget
    · simp [hEq]
    · intro hlt; omega
    · rintro ⟨hnd, hlt⟩
      refine ⟨?_, ?_⟩
      · refine List.Nodup.append hnd (List.nodup_range' _ _) ?_
        intro x hx hx'
        have := hlt x hx
        have := (List.mem_range'_1.mp hx').1
        omega
      · intro p hp
        rcases List.mem_append.mp hp with hp | hp
        · have := hlt p hp
          show p < g.HeapNext + 10
          omega
        · have := (List.mem_range'_1.mp hp).2
          show p < g.HeapNext + 10
          omega
  · have hlt : w.LastUsedCachedNodeIndex < w.NodePool.length := by omega
    have hget : w.NodePool[w.LastUsedCachedNodeIndex]? =
        some (w.NodePool[w.LastUsedCachedNodeIndex]) := List.getElem?_eq_getElem hlt
    refine ⟨w.NodePool[w.LastUsedCachedNodeIndex], g,
      { w with LastUsedCachedNodeIndex := w.LastUsedCachedNodeIndex + 1 }, ?_, hget, rfl, ?_,
      ⟨[], by simp⟩, fun _ => ⟨rfl, rfl⟩, ?_⟩
    · simp only [CreateCacheNode, h, if_false, hget]
    · show w.LastUsedCachedNodeIndex + 1 ≤ w.NodePool.length
      omega
    · exact id

theorem CreateCacheNodes_spec (K : Nat) : ∀ (g : FGlobals) (w : SUIRetainerBoxWidget),
    w.LastUsedCachedNodeIndex ≤ w.NodePool.length →
    ∃ Nodes g2 w2, CreateCacheNodes K g w = some (Nodes, g2, w2) ∧
      Nodes = (w2.NodePool.drop w.LastUsedCachedNodeIndex).take K ∧
      w2.LastUsedCachedNodeIndex = w.LastUsedCachedNodeIndex + K ∧
      w2.LastUsedCachedNodeIndex ≤ w2.NodePool.length ∧
      (∃ t, w2.NodePool = w.NodePool ++ t) ∧
      (NodePoolWellFormed g w → NodePoolWellFormed g2 w2) := by
  induction K with
  | zero =>
    intro g w hc
    exact ⟨[], g, w, rfl, by simp, rfl, hc, ⟨[], by simp⟩, id⟩
  | succ K ih =>
    intro g w hc
    obtain ⟨n, g1, w1, h1, hget, hcur, hle, ⟨t1, ht1⟩, -, hwf1⟩ := CreateCacheNode_spec g w hc
    obtain ⟨ns, g2, w2, h2, hns, hcur2, hle2, ⟨t2, ht2⟩, hwf2⟩ := ih g1 w1 hle
    have hlt : w.LastUsedCachedNodeIndex < w1.NodePool.length := by omega
    have hget2 : w2.NodePool[w.LastUsedCachedNodeIndex]? = some n := by
      rw [ht2, List.getElem?_append_left hlt]
      exact hget
    have hlt2 : w.LastUsedCachedNodeIndex < w2.NodePool.length := by
      rw [ht2, List.length_append]
      omega
    refine ⟨n :: ns, g2, w2, ?_, ?_, ?_, hle2, ⟨t1 ++ t2, ?_⟩, fun h => hwf2 (hwf1 h)⟩
    · simp only [CreateCacheNodes, h1, h2]
    · rw [List.drop_eq_getElem_cons hlt2, List.take_succ_cons, hns, hcur]
      congr 1
      have := (List.getElem?_eq_getElem hlt2).symm.trans hget2
      exact (Option.some.inj this).symm
    · omega
    · rw [ht2, ht1, List.append_assoc]

/-- C6: after a pool reset, `K` consecutive `CreateCacheNode` calls all return, and the `K`
node references they return are pairwise distinct (for every pool that satisfies the heap
invariant). -/
theorem C6_CreateCacheNode_distinct (K : Nat) (g : FGlobals) (w : SUIRetainerBoxWidget)
    (hwf : NodePoolWellFormed g w) :
    ∃ Nodes g2 w2, CreateCacheNodes K g (ResetCacheNodePool w) = some (Nodes, g2, w2) ∧
      Nodes.length = K ∧ Nodes.Nodup := by
  have hwf0 : NodePoolWellFormed g (ResetCacheNodePool w) := hwf
  obtain ⟨ns, g2, w2, h, hns, hcur, hle, -, hwf2⟩ :=
    CreateCacheNodes_spec K g (ResetCacheNodePool w) (Nat.zero_le _)
  refine ⟨ns, g2, w2, h, ?_, ?_⟩
  · have h0 : (ResetCacheNodePool w).LastUsedCachedNodeIndex = 0 := rfl
    rw [h0] at hcur hns
    rw [hns]
    simp
    omega
  · rw [hns]
    exact ((hwf2 hwf0).1.sublist (List.drop_sublist _ _)).sublist (List.take_sublist _ _)

/-- C6 at a concrete pool: twelve calls on a pool that starts empty. -/
theorem C6_CreateCacheNode_distinct_witness :
    ∃ Nodes g2 w2, CreateCacheNodes 12 (exampleGlobals 0 0)
        (ResetCacheNodePool (exampleWidget (exampleRenderTarget true 0)
          EUIRetainerBoxColourSpace.Linear true 0 1)) = some (Nodes, g2, w2) ∧
      Nodes.length = 12 ∧ Nodes.Nodup :=
  C6_CreateCacheNode_distinct 12 (exampleGlobals 0 0)
    (exampleWidget (exampleRenderTarget true 0) EUIRetainerBoxColourSpace.Linear true 0 1)
    (by decide)

/-- C7: a cycle starts with the cursor at 0. Its first `CreateCacheNode` call returns a node
`First`; after any number `K` of further calls and the pool reset, the next call returns
`First` again, and neither the pool nor the heap has changed in that call (only the cursor
moved to 1). -/
theorem C7_first_node_reused (g0 : FGlobals) (w0 : SUIRetainerBoxWidget)
    (h0 : w0.LastUsedCachedNodeIndex = 0) :
    ∃ First g1 w1, CreateCacheNode g0 w0 = some (First, g1, w1) ∧
      ∀ K : Nat, ∃ Nodes g2 w2, CreateCacheNodes K g1 w1 = some (Nodes, g2, w2) ∧
        ∀ g3 : FGlobals, CreateCacheNode g3 (ResetCacheNodePool w2) =
          some (First, g3, { ResetCacheNodePool w2 with LastUsedCachedNodeIndex := 1 }) := by
  obtain ⟨n, g1, w1, h1, hget, hcur, hle, -, -, -⟩ :=
    CreateCacheNode_spec g0 w0 (by omega)
  refine ⟨n, g1, w1, h1, fun K => ?_⟩
  obtain ⟨ns, g2, w2, h2, -, -, -, ⟨t, ht⟩, -⟩ := CreateCacheNodes_spec K g1 w1 hle
  refine ⟨ns, g2, w2, h2, fun g3 => ?_⟩
  rw [h0] at hget
  have hpos : 0 < w1.NodePool.length := by omega
  have hget2 : w2.NodePool[0]? = some n := by
    rw [ht, List.getElem?_append_left hpos]
    exact hget
  have hpos2 : 0 < w2.NodePool.length := by
    rw [ht, List.length_append]
    omega
  have hnot : ¬ (0 ≥ w2.NodePool.length) := by omega
  simp only [CreateCacheNode, ResetCacheNodePool, hnot, if_false, hget2]

/-- C7 at a concrete pool that starts empty. -/
theorem C7_first_node_reused_witness :
    ∃ First g1 w1, CreateCacheNode (exampleGlobals 0 0)
        (exampleWidget (exampleRenderTarget true 0)
          EUIRetainerBoxColourSpace.Linear true 0 1) = some (First, g1, w1) ∧
      ∀ K : Nat, ∃ Nodes g2 w2, CreateCacheNodes K g1 w1 = some (Nodes, g2, w2) ∧
        ∀ g3 : FGlobals, CreateCacheNode g3 (ResetCacheNodePool w2) =
          some (First, g3, { ResetCacheNodePool w2 with LastUsedCachedNodeIndex := 1 }) :=
  C7_first_node_reused (exampleGlobals 0 0)
    (exampleWidget (exampleRenderTarget true 0) EUIRetainerBoxColourSpace.Linear true 0 1) rfl

/-! ## Facts about `PaintRetainedContent` -/

theorem CreateCacheNode_frame {g : FGlobals} {w : SUIRetainerBoxWidget} {n : Nat}
    {g1 : FGlobals} {w1 : SUIRetainerBoxWidget} (h : CreateCacheNode g w = some (n, g1, w1)) :
    g1 = { g with HeapNext := g1.HeapNext } ∧
      w1 = { w with NodePool := w1.NodePool,
                    LastUsedCachedNodeIndex := w1.LastUsedCachedNodeIndex } := by
  unfold CreateCacheNode at h
  by_cases hc : w.LastUsedCachedNodeIndex ≥ w.NodePool.length
  · simp only [hc, if_true] at h
    cases hget : (w.NodePool ++ List.range' g.HeapNext 10)[w.LastUsedCachedNodeIndex]? with
    | none => simp [hget] at h
    | some x =>
      simp only [hget, Option.some.injEq, Prod.mk.injEq] at h
      obtain ⟨-, hg, hw⟩ := h
      subst hg hw
      exact ⟨rfl, rfl⟩
  · simp only [hc, if_false] at h
    cases hget : w.NodePool[w.LastUsedCachedNodeIndex]? with
    | none => simp [hget] at h
    | some x =>
      simp only [hget, Option.some.injEq, Prod.mk.injEq] at h
      obtain ⟨-, hg, hw⟩ := h
      subst hg hw
      exact ⟨rfl, rfl⟩

theorem CreateCacheNodes_frame (K : Nat) : ∀ {g : FGlobals} {w : SUIRetainerBoxWidget}
    {ns : List Nat} {g2 : FGlobals} {w2 : SUIRetainerBoxWidget},
    CreateCacheNodes K g w = some (ns, g2, w2) →
    g2 = { g with HeapNext := g2.HeapNext } ∧
      w2 = { w with NodePool := w2.NodePool,
                    LastUsedCachedNodeIndex := w2.LastUsedCachedNodeIndex } := by
  induction K with
  | zero =>
    intro g w ns g2 w2 h
    simp only [CreateCacheNodes, Option.some.injEq, Prod.mk.injEq] at h
    obtain ⟨-, hg, hw⟩ := h
    subst hg hw
    exact ⟨rfl, rfl⟩
  | succ K ih =>
    intro g w ns g2 w2 h
    unfold CreateCacheNodes at h
    split at h
    · exact absurd h (by simp)
    · rename_i n g1 w1 h1
      split at h
      · exact absurd h (by simp)
      · rename_i ns1 g2' w2' h2
        simp only [Option.some.injEq, Prod.mk.injEq] at h
        obtain ⟨-, hg, hw⟩ := h
        subst hg hw
        obtain ⟨hg1, hw1⟩ := CreateCacheNode_frame h1
        obtain ⟨hg2, hw2⟩ := ih h2
        constructor
        · rw [hg2, hg1]
        · rw [hw2, hw1]

theorem PaintRetainedContent_draw_spec (This K : Nat) (g : FGlobals)
    (w : SUIRetainerBoxWidget) (hc : w.LastUsedCachedNodeIndex ≤ w.NodePool.length) :
    ∃ g2 w2, PaintRetainedContent_draw This K g w = some (true, g2, w2) ∧
      g2 = { g with Shared_WaitingToRender := TArray_Remove g.Shared_WaitingToRender This,
                    HeapNext := g2.HeapNext } ∧
      w2 = { w with bRenderRequested := false, RootCacheNode := w2.RootCacheNode,
                    NodePool := w2.NodePool,
                    LastUsedCachedNodeIndex := w2.LastUsedCachedNodeIndex } := by
  obtain ⟨n, g1, w1, h1, -, -, hle1, -, -, -⟩ := CreateCacheNode_spec g w hc
  obtain ⟨ns, g2, w2, h2, -, -, -, -, -⟩ :=
    CreateCacheNodes_spec K g1 { w1 with RootCacheNode := some n } hle1
  obtain ⟨fg1, fw1⟩ := CreateCacheNode_frame h1
  obtain ⟨fg2, fw2⟩ := CreateCacheNodes_frame _ h2
  refine ⟨{ g2 with Shared_WaitingToRender := TArray_Remove g2.Shared_WaitingToRender This },
    { w2 with bRenderRequested := false }, ?_, ?_, ?_⟩
  · simp only [PaintRetainedContent_draw, h1, h2]
  · rw [fg2, fg1]
  · rw [fw2, fw1]

theorem PaintRetainedContent_render_skipped (This : Nat) (a : FPaintInput) (g : FGlobals)
    (w : SUIRetainerBoxWidget)
    (h : ¬ (toUInt32 (RoundToInt a.RenderSize.X) ≠ 0 ∧ toUInt32 (RoundToInt a.RenderSize.Y) ≠ 0 ∧
      a.bContentVisible = true)) :
    PaintRetainedContent_render This a g w =
      some (false, PaintRetainedContent_countWork g,
        ResetCacheNodePool { w with LastTickedFrame := g.GFrameCounter }) := by
  unfold PaintRetainedContent_render
  by_cases h1 : toUInt32 (RoundToInt a.RenderSize.X) ≠ 0 ∧
      toUInt32 (RoundToInt a.RenderSize.Y) ≠ 0
  · have hv : a.bContentVisible = false := by
      cases hb : a.bContentVisible
      · rfl
      · exact absurd ⟨h1.1, h1.2, hb⟩ h
    simp only [h1, hv]
    simp [PaintRetainedContent_countWork]
  · simp only [h1]
    simp [PaintRetainedContent_countWork]

theorem PaintRetainedContent_render_drawn (This : Nat) (a : FPaintInput) (g : FGlobals)
    (w : SUIRetainerBoxWidget)
    (hW : toUInt32 (RoundToInt a.RenderSize.X) ≠ 0)
    (hH : toUInt32 (RoundToInt a.RenderSize.Y) ≠ 0)
    (hv : a.bContentVisible = true) :
    ∃ g2 w2, PaintRetainedContent_render This a g w = some (true, g2, w2) ∧
      g2 = { PaintRetainedContent_countWork g with
        Shared_WaitingToRender := TArray_Remove g.Shared_WaitingToRender This,
        HeapNext := g2.HeapNext } ∧
      w2 = { w with
        bRenderRequested := false, LastTickedFrame := g.GFrameCounter,
        RootCacheNode := w2.RootCacheNode, NodePool := w2.NodePool,
        LastUsedCachedNodeIndex := w2.LastUsedCachedNodeIndex,
        RenderingResources := w2.RenderingResources } := by
  obtain ⟨g2, w2, h, hg, hw⟩ := PaintRetainedContent_draw_spec This a.DrawWindowCacheNodes
    (PaintRetainedContent_countWork g)
    (PaintRetainedContent_resized
      (ResetCacheNodePool { w with LastTickedFrame := (PaintRetainedContent_countWork g).GFrameCounter })
      (toUInt32 (RoundToInt a.RenderSize.X)) (toUInt32 (RoundToInt a.RenderSize.Y)))
    (Nat.zero_le _)
  refine ⟨g2, w2, ?_, ?_, ?_⟩
  · simp only [PaintRetainedContent_render, hW, hH, hv, ne_eq, not_false_eq_true, and_self,
      if_true, h]
  · rw [hg]
    rfl
  · rw [hw]
    rfl
theorem PaintRetainedContent_eq (This : Nat) (a : FPaintInput) (g : FGlobals)
    (w : SUIRetainerBoxWidget) :
    PaintRetainedContent This a g w =
      match PaintRetainedContent_phaseRule w g.GFrameCounter with
      | none => none
      | some bPhase =>
        if PaintRetainedContent_throttled g = true then
          some (false,
            { g with Shared_WaitingToRender := TArray_AddUnique g.Shared_WaitingToRender This },
            { w with bRenderRequested := bPhase || w.bRenderRequested })
        else if bPhase = true ∨ a.RenderSize ≠ w.PreviousRenderSize ∨ w.bRenderRequested = true then
          PaintRetainedContent_render This a g
            { w with PreviousRenderSize := a.RenderSize, bRenderRequested := true }
        else some (false, g, w) := by
  unfold PaintRetainedContent
  cases hp : PaintRetainedContent_phaseRule w g.GFrameCounter with
  | none => rfl
  | some b =>
    obtain ⟨p, b1, b2, b3, b4, b5, b6, req, ltf, rr, n, l, i, c⟩ := w
    by_cases ht : PaintRetainedContent_throttled g = true
    · cases b <;> simp [ht]
    · by_cases hs : a.RenderSize = p
      · subst hs
        cases b <;> cases req <;> simp [ht]
      · cases b <;> cases req <;> simp [ht, hs]

theorem PaintRetainedContent_phaseRule_defined (w : SUIRetainerBoxWidget) (f : Nat)
    (hdef : w.RenderOnPhase = true → toUInt64 w.PhaseCount ≠ 0) :
    ∃ b, PaintRetainedContent_phaseRule w f = some b := by
  unfold PaintRetainedContent_phaseRule
  cases hp : w.RenderOnPhase
  · exact ⟨false, by simp⟩
  · by_cases hl : w.LastTickedFrame = f
    · exact ⟨false, by simp [hl]⟩
    · exact ⟨f % toUInt64 w.PhaseCount == toUInt64 w.Phase, by simp [hl, hdef hp]⟩

theorem TArray_AddUnique_idem (l : List Nat) (x : Nat) :
    TArray_AddUnique (TArray_AddUnique l x) x = TArray_AddUnique l x := by
  unfold TArray_AddUnique
  by_cases h : x ∈ l <;> simp [h]

theorem TArray_AddUnique_count (l : List Nat) (x : Nat) (h : l.Nodup) :
    (TArray_AddUnique l x).count x = 1 := by
  unfold TArray_AddUnique
  by_cases hx : x ∈ l
  · simp only [hx, if_true]
    exact List.count_eq_one_of_mem h hx
  · simp only [hx, if_false, List.count_append, List.count_eq_zero_of_not_mem hx]
    simp

theorem PaintRetainedContent_repeat_throttled (This : Nat) (inputs : List FPaintInput) :
    ∀ (g : FGlobals) (w : SUIRetainerBoxWidget),
    PaintRetainedContent_throttled g = true →
    (w.RenderOnPhase = true → toUInt64 w.PhaseCount ≠ 0) →
    ∃ g2 w2, PaintRetainedContent_repeat This inputs g w =
        some (List.replicate inputs.length false, g2, w2) ∧
      (w.bRenderRequested = true → w2.bRenderRequested = true) ∧
      (inputs ≠ [] →
        g2.Shared_WaitingToRender = TArray_AddUnique g.Shared_WaitingToRender This) := by
  induction inputs with
  | nil =>
    intro g w _ _
    exact ⟨g, w, rfl, id, fun h => absurd rfl h⟩
  | cons a rest ih =>
    intro g w ht hdef
    obtain ⟨b, hb⟩ := PaintRetainedContent_phaseRule_defined w g.GFrameCounter hdef
    have h1 := PaintRetainedContent_eq This a g w
    simp only [hb, ht, if_true] at h1
    obtain ⟨g2, w2, h2, hreq, hwait⟩ := ih
      { g with Shared_WaitingToRender := TArray_AddUnique g.Shared_WaitingToRender This }
      { w with bRenderRequested := b || w.bRenderRequested } ht hdef
    refine ⟨g2, w2, ?_, ?_, fun _ => ?_⟩
    · simp only [PaintRetainedContent_repeat, h1, h2, List.length_cons, List.replicate_succ]
    · intro hr
      exact hreq (by simp [hr])
    · cases rest with
      | nil =>
        simp only [PaintRetainedContent_repeat, Option.some.injEq, Prod.mk.injEq] at h2
        rw [← h2.2.1]
      | cons a' rest' =>
        rw [hwait (by simp)]
        exact TArray_AddUnique_idem _ _

/-! ## C5: a deferred paint call -/

/-- C5: while a positive budget is configured and the shared this-frame counter exceeds it,
every one of any number (at least one) of consecutive `PaintRetainedContent` calls returns
false, a request flag that was set is still set afterwards, and the box occurs exactly once in
the waiting array. `hdef` says that the modulo of the phase rule is defined, `hset` that the
waiting array holds no box twice (it is only written by `AddUnique` and `Remove`). -/
theorem C5_throttled_paint_defers (This : Nat) (inputs : List FPaintInput) (g : FGlobals)
    (w : SUIRetainerBoxWidget) (hne : inputs ≠ [])
    (hmax : 0 < g.Shared_MaxRetainerWorkPerFrame)
    (hwork : g.Shared_RetainerWorkThisFrame.TryGetValue g.GFrameCounter 0 >
      g.Shared_MaxRetainerWorkPerFrame)
    (hdef : w.RenderOnPhase = true → toUInt64 w.PhaseCount ≠ 0)
    (hset : g.Shared_WaitingToRender.Nodup) :
    ∃ g2 w2, PaintRetainedContent_repeat This inputs g w =
        some (List.replicate inputs.length false, g2, w2) ∧
      (w.bRenderRequested = true → w2.bRenderRequested = true) ∧
      g2.Shared_WaitingToRender.count This = 1 := by
  have ht : PaintRetainedContent_throttled g = true := by
    simp [PaintRetainedContent_throttled, hmax, hwork]
  obtain ⟨g2, w2, h, hreq, hwait⟩ := PaintRetainedContent_repeat_throttled This inputs g w ht hdef
  refine ⟨g2, w2, h, hreq, ?_⟩
  rw [hwait hne]
  exact TArray_AddUnique_count _ _ hset
theorem PaintRetainedContent_render_effect {This : Nat} {a : FPaintInput} {g : FGlobals}
    {w : SUIRetainerBoxWidget} {r : Bool} {g2 : FGlobals} {w2 : SUIRetainerBoxWidget}
    (h : PaintRetainedContent_render This a g w = some (r, g2, w2)) :
    w2.PreviousRenderSize = w.PreviousRenderSize ∧ w2.RenderOnPhase = w.RenderOnPhase ∧
      w2.Phase = w.Phase ∧ w2.PhaseCount = w.PhaseCount ∧
      w2.RenderOnInvalidation = w.RenderOnInvalidation ∧
      w2.LastTickedFrame = g.GFrameCounter ∧
      (r = true → w2.bRenderRequested = false) ∧
      (r = false → w2.bRenderRequested = w.bRenderRequested) ∧
      (r = true ↔ (toUInt32 (RoundToInt a.RenderSize.X) ≠ 0 ∧
        toUInt32 (RoundToInt a.RenderSize.Y) ≠ 0 ∧ a.bContentVisible = true)) ∧
      g2.Shared_RetainerWorkThisFrame = (PaintRetainedContent_countWork g).Shared_RetainerWorkThisFrame ∧
      g2.GFrameCounter = g.GFrameCounter ∧
      g2.Shared_MaxRetainerWorkPerFrame = g.Shared_MaxRetainerWorkPerFrame ∧
      g2.Shared_WaitingToRender =
        (if r then TArray_Remove g.Shared_WaitingToRender This else g.Shared_WaitingToRender) := by
  by_cases hc : toUInt32 (RoundToInt a.RenderSize.X) ≠ 0 ∧
      toUInt32 (RoundToInt a.RenderSize.Y) ≠ 0 ∧ a.bContentVisible = true
  · obtain ⟨g3, w3, h3, hg, hw⟩ := PaintRetainedContent_render_drawn This a g w hc.1 hc.2.1 hc.2.2
    rw [h3] at h
    simp only [Option.some.injEq, Prod.mk.injEq] at h
    obtain ⟨hr, hg', hw'⟩ := h
    subst hr hg' hw'
    rw [hg, hw]
    simp [hc, PaintRetainedContent_countWork]
  · rw [PaintRetainedContent_render_skipped This a g w hc] at h
    simp only [Option.some.injEq, Prod.mk.injEq] at h
    obtain ⟨hr, hg', hw'⟩ := h
    subst hr hg' hw'
    simp [hc, PaintRetainedContent_countWork, ResetCacheNodePool]

theorem PaintRetainedContent_render_defined (This : Nat) (a : FPaintInput) (g : FGlobals)
    (w : SUIRetainerBoxWidget) :
    ∃ r g2 w2, PaintRetainedContent_render This a g w = some (r, g2, w2) := by
  by_cases hc : toUInt32 (RoundToInt a.RenderSize.X) ≠ 0 ∧
      toUInt32 (RoundToInt a.RenderSize.Y) ≠ 0 ∧ a.bContentVisible = true
  · obtain ⟨g3, w3, h3, -, -⟩ := PaintRetainedContent_render_drawn This a g w hc.1 hc.2.1 hc.2.2
    exact ⟨true, g3, w3, h3⟩
  · exact ⟨false, _, _, PaintRetainedContent_render_skipped This a g w hc⟩

theorem PaintRetainedContent_defined (This : Nat) (a : FPaintInput) (g : FGlobals)
    (w : SUIRetainerBoxWidget) (hdef : w.RenderOnPhase = true → toUInt64 w.PhaseCount ≠ 0) :
    ∃ r g2 w2, PaintRetainedContent This a g w = some (r, g2, w2) := by
  obtain ⟨b, hb⟩ := PaintRetainedContent_phaseRule_defined w g.GFrameCounter hdef
  rw [PaintRetainedContent_eq, hb]
  simp only
  split
  · exact ⟨_, _, _, rfl⟩
  · split
    · exact PaintRetainedContent_render_defined _ _ _ _
    · exact ⟨_, _, _, rfl⟩

theorem PaintRetainedContent_effect {This : Nat} {a : FPaintInput} {g : FGlobals}
    {w : SUIRetainerBoxWidget} {r : Bool} {g2 : FGlobals} {w2 : SUIRetainerBoxWidget}
    (h : PaintRetainedContent This a g w = some (r, g2, w2)) :
    w2.RenderOnPhase = w.RenderOnPhase ∧ w2.Phase = w.Phase ∧ w2.PhaseCount = w.PhaseCount ∧
      w2.RenderOnInvalidation = w.RenderOnInvalidation ∧
      (w2.LastTickedFrame = w.LastTickedFrame ∨ w2.LastTickedFrame = g.GFrameCounter) ∧
      (r = true → w2.LastTickedFrame = g.GFrameCounter ∧ w2.bRenderRequested = false ∧
        w2.PreviousRenderSize = a.RenderSize) ∧
      (PaintRetainedContent_throttled g = false → w2.PreviousRenderSize = a.RenderSize) := by
  rw [PaintRetainedContent_eq] at h
  cases hb : PaintRetainedContent_phaseRule w g.GFrameCounter with
  | none => simp [hb] at h
  | some b =>
    simp only [hb] at h
    by_cases ht : PaintRetainedContent_throttled g = true
    · simp only [ht, if_true, Option.some.injEq, Prod.mk.injEq] at h
      obtain ⟨hr, -, hw⟩ := h
      subst hr hw
      simp [ht]
    · simp only [ht, Bool.false_eq_true, if_false] at h
      by_cases hq : b = true ∨ a.RenderSize ≠ w.PreviousRenderSize ∨ w.bRenderRequested = true
      · simp only [hq, if_true] at h
        obtain ⟨e1, e2, e3, e4, e5, e6, e7, -, -⟩ := PaintRetainedContent_render_effect h
        simp only at e1 e2 e3 e4 e5
        exact ⟨e2, e3, e4, e5, Or.inr e6, fun hr => ⟨e6, e7 hr, e1⟩, fun _ => e1⟩
      · simp only [hq, if_false, Option.some.injEq, Prod.mk.injEq] at h
        obtain ⟨hr, -, hw⟩ := h
        subst hr hw
        have hs : a.RenderSize = w.PreviousRenderSize := by
          by_contra hne
          exact hq (Or.inr (Or.inl hne))
        simp [hs]

/-- C5 at a concrete state: budget 1, counter 2, two paint calls in frame 5. -/
theorem C5_throttled_paint_defers_witness :
    ∃ g2 w2, PaintRetainedContent_repeat 7 [examplePaintInput 10 10, examplePaintInput 20 20]
        (exampleGlobalsWorked 5 1 2)
        (exampleWidget (exampleRenderTarget true 0) EUIRetainerBoxColourSpace.Linear true 2 4) =
        some (List.replicate 2 false, g2, w2) ∧
      ((exampleWidget (exampleRenderTarget true 0)
          EUIRetainerBoxColourSpace.Linear true 2 4).bRenderRequested = true →
        w2.bRenderRequested = true) ∧
      g2.Shared_WaitingToRender.count 7 = 1 :=
  C5_throttled_paint_defers 7 [examplePaintInput 10 10, examplePaintInput 20 20]
    (exampleGlobalsWorked 5 1 2)
    (exampleWidget (exampleRenderTarget true 0) EUIRetainerBoxColourSpace.Linear true 2 4)
    (by decide) (by decide) (by decide) (by decide) (by decide)

/-! ## C2: a change of the render size -/

/-- C2 fails as stated, in each of four ways (box 1, budget 1, frame 5; the box first
re-renders at size 10 x 10). (a) A second box re-renders, the counter is 2 and exceeds the
budget: the call with the new size 20 x 20 is deferred and returns false. (b) The new size
0 x 5 rounds to width 0: false. (c) The content is not visible at the new size: false.
(d) The call with 20 x 20 is deferred, and the next call, in frame 6 and within budget, comes
with 10 x 10 again: it differs from the size of the call before it, and returns false. -/
theorem C2_size_change_counterexample :
    ((PaintRetainedContent 1 (examplePaintInput 10 10) (exampleGlobals 5 1)
        (exampleWidget (exampleRenderTarget true 0) EUIRetainerBoxColourSpace.Linear false 0 1)
      ).bind fun r1 =>
        (PaintRetainedContent 2 (examplePaintInput 10 10) r1.2.1
          (exampleWidget (exampleRenderTarget true 0) EUIRetainerBoxColourSpace.Linear false 0 1)
        ).bind fun r2 =>
          (PaintRetainedContent 1 (examplePaintInput 20 20) r2.2.1 r1.2.2).bind fun r3 =>
            (PaintRetainedContent 1 (examplePaintInput 10 10)
              { r3.2.1 with GFrameCounter := 6 } r3.2.2).map fun r4 =>
              (r1.1, r2.1, r3.1, r4.1)) = some (true, true, false, false) ∧
    ((PaintRetainedContent 1 (examplePaintInput 10 10) (exampleGlobals 5 1)
        (exampleWidget (exampleRenderTarget true 0) EUIRetainerBoxColourSpace.Linear false 0 1)
      ).bind fun r1 =>
        (PaintRetainedContent 1 (examplePaintInput 0 5) r1.2.1 r1.2.2).map fun r2 =>
          (r1.1, r2.1)) = some (true, false) ∧
    ((PaintRetainedContent 1 (examplePaintInput 10 10) (exampleGlobals 5 1)
        (exampleWidget (exampleRenderTarget true 0) EUIRetainerBoxColourSpace.Linear false 0 1)
      ).bind fun r1 =>
        (PaintRetainedContent 1 { examplePaintInput 20 20 with bContentVisible := false }
          r1.2.1 r1.2.2).map fun r2 => (r1.1, r2.1)) = some (true, false) := by
  decide

/-- C2 as amended: when neither the preceding paint call nor this one is deferred by the
budget, the render size of this call differs from that of the preceding call, its rounded
width and height are non-zero and the content is visible, the call performs exactly one
re-render: it returns true, the shared counter grows by one, the request flag is cleared and
the new size is recorded. This holds for every setting of render-on-phase,
render-on-invalidation, phase and phase count for which the phase rule has a defined
modulo (`hdef`). -/
theorem C2_size_change_amended (This : Nat) (a1 a2 : FPaintInput) (g1 g2 g1' : FGlobals)
    (w0 w1 : SUIRetainerBoxWidget) (r1 : Bool)
    (hprev : PaintRetainedContent This a1 g1 w0 = some (r1, g1', w1))
    (hprevBudget : PaintRetainedContent_throttled g1 = false)
    (hsize : a2.RenderSize ≠ a1.RenderSize)
    (hbudget : PaintRetainedContent_throttled g2 = false)
    (hW : toUInt32 (RoundToInt a2.RenderSize.X) ≠ 0)
    (hH : toUInt32 (RoundToInt a2.RenderSize.Y) ≠ 0)
    (hvis : a2.bContentVisible = true)
    (hdef : w0.RenderOnPhase = true → toUInt64 w0.PhaseCount ≠ 0) :
    ∃ g2' w2, PaintRetainedContent This a2 g2 w1 = some (true, g2', w2) ∧
      g2'.Shared_RetainerWorkThisFrame.TryGetValue g2.GFrameCounter 0 =
        g2.Shared_RetainerWorkThisFrame.TryGetValue g2.GFrameCounter 0 + 1 ∧
      w2.bRenderRequested = false ∧ w2.PreviousRenderSize = a2.RenderSize := by
  obtain ⟨e1, -, e3, -, -, -, e7⟩ := PaintRetainedContent_effect hprev
  have hdef1 : w1.RenderOnPhase = true → toUInt64 w1.PhaseCount ≠ 0 := by
    rw [e1, e3]; exact hdef
  obtain ⟨b, hb⟩ := PaintRetainedContent_phaseRule_defined w1 g2.GFrameCounter hdef1
  have hne : a2.RenderSize ≠ w1.PreviousRenderSize := by
    rw [e7 hprevBudget]; exact hsize
  obtain ⟨g3, w3, h3, hg3, hw3⟩ := PaintRetainedContent_render_drawn This a2 g2
    { w1 with PreviousRenderSize := a2.RenderSize, bRenderRequested := true } hW hH hvis
  refine ⟨g3, w3, ?_, ?_, ?_, ?_⟩
  · rw [PaintRetainedContent_eq, hb]
    simp only [hbudget, Bool.false_eq_true, if_false, hne, ne_eq, not_false_eq_true, true_or,
      or_true, if_true]
    exact h3
  · rw [hg3]
    simp [PaintRetainedContent_countWork, TFrameValue.TryGetValue, TFrameValue.Assign]
  · rw [hw3]
  · rw [hw3]

/-- C2 amended at concrete calls: frame 5 at 10 x 10, then frame 6 at 20 x 20. -/
theorem C2_size_change_amended_witness :
    ∃ g2' w2, PaintRetainedContent 1 (examplePaintInput 20 20) (exampleGlobals 6 1)
        examplePainted.2.2 = some (true, g2', w2) ∧
      g2'.Shared_RetainerWorkThisFrame.TryGetValue (exampleGlobals 6 1).GFrameCounter 0 =
        (exampleGlobals 6 1).Shared_RetainerWorkThisFrame.TryGetValue
          (exampleGlobals 6 1).GFrameCounter 0 + 1 ∧
      w2.bRenderRequested = false ∧
      w2.PreviousRenderSize = (examplePaintInput 20 20).RenderSize :=
  C2_size_change_amended 1 (examplePaintInput 10 10) (examplePaintInput 20 20)
    (exampleGlobals 5 1) (exampleGlobals 6 1) examplePainted.2.1
    (exampleWidget (exampleRenderTarget true 0) EUIRetainerBoxColourSpace.Linear true 2 4)
    examplePainted.2.2 examplePainted.1
    (by decide) (by decide) (by decide) (by decide) (by decide) (by decide) (by decide)
    (by decide)

/-! ## C4: the phase rule -/

theorem PaintRetainedContent_phaseRule_true {w : SUIRetainerBoxWidget} {f : Nat}
    (h : PaintRetainedContent_phaseRule w f = some true) :
    w.RenderOnPhase = true ∧ w.LastTickedFrame ≠ f ∧ toUInt64 w.PhaseCount ≠ 0 ∧
      f % toUInt64 w.PhaseCount = toUInt64 w.Phase := by
  unfold PaintRetainedContent_phaseRule at h
  cases hp : w.RenderOnPhase
  · simp [hp] at h
  · by_cases hl : w.LastTickedFrame = f
    · simp [hp, hl] at h
    · by_cases hz : toUInt64 w.PhaseCount = 0
      · simp [hp, hl, hz] at h
      · simp only [hp, hl, hz, if_true, if_false, ne_eq, not_false_eq_true, Option.some.injEq,
          beq_iff_eq] at h
        exact ⟨rfl, hl, hz, h⟩

theorem toUInt64_mod_eq {f : Nat} {pc ph : Int} (hpc1 : 1 ≤ pc) (hpc2 : pc < 2 ^ 31)
    (hph1 : -2 ^ 31 ≤ ph) (hph2 : ph < 2 ^ 31) (h : f % toUInt64 pc = toUInt64 ph) :
    (f : Int) % pc = ph := by
  unfold toUInt64 at h
  have e1 : (pc % 2 ^ 64).toNat = pc.toNat := by
    congr 1
    exact Int.emod_eq_of_lt (by omega) (by omega)
  rw [e1] at h
  have hn : ((pc.toNat : Nat) : Int) = pc := Int.toNat_of_nonneg (by omega)
  have hlt : f % pc.toNat < pc.toNat := Nat.mod_lt _ (by omega)
  have hcast : ((f % pc.toNat : Nat) : Int) = (f : Int) % pc := by
    rw [Int.natCast_mod, hn]
  rw [← hcast, h]
  have hm : (ph % 2 ^ 64).toNat < pc.toNat := by rw [← h]; exact hlt
  omega

theorem RunCalls_LastTickedFrame_const (This f : Nat) (calls : List FWidgetCall) :
    ∀ (w0 w : SUIRetainerBoxWidget) (rs : List (Nat × Bool)),
    RunCalls This calls w0 = some (rs, w) → (∀ r ∈ rs, r.1 = f) → w0.LastTickedFrame = f →
    w.LastTickedFrame = f := by
  induction calls with
  | nil =>
    intro w0 w rs h _ h0
    simp only [RunCalls, Option.some.injEq, Prod.mk.injEq] at h
    rw [← h.2]; exact h0
  | cons c rest ih =>
    intro w0 w rs h hall h0
    cases c with
    | Paint a g =>
      simp only [RunCalls] at h
      cases hp : PaintRetainedContent This a g w0 with
      | none => simp [hp] at h
      | some res =>
        obtain ⟨r, g1, w1⟩ := res
        simp only [hp] at h
        cases hr : RunCalls This rest w1 with
        | none => simp [hr] at h
        | some res2 =>
          obtain ⟨rs2, w2⟩ := res2
          simp only [hr, Option.some.injEq, Prod.mk.injEq] at h
          obtain ⟨hrs, hw⟩ := h
          subst hrs hw
          have hf : g.GFrameCounter = f := hall (g.GFrameCounter, r) (List.mem_cons_self _ _)
          obtain ⟨-, -, -, -, e5, -, -⟩ := PaintRetainedContent_effect hp
          refine ih w1 w2 rs2 hr (fun x hx => hall x (List.mem_cons_of_mem _ hx)) ?_
          rcases e5 with e | e
          · rw [e]; exact h0
          · rw [e]; exact hf
    | InvalidateWidget =>
      simp only [RunCalls] at h
      refine ih _ w rs h hall ?_
      unfold InvalidateWidget
      split <;> exact h0
    | RequestRender =>
      simp only [RunCalls] at h
      exact ih _ w rs h hall h0
    | OnGlobalInvalidate =>
      simp only [RunCalls] at h
      exact ih _ w rs h hall h0
    | SetRenderingPhase p pc =>
      simp only [RunCalls] at h
      exact ih _ w rs h hall h0

theorem RunCalls_serviced (This f : Nat) (calls : List FWidgetCall) :
    ∀ (w0 w : SUIRetainerBoxWidget) (rs : List (Nat × Bool)),
    RunCalls This calls w0 = some (rs, w) →
    (rs.map Prod.fst ++ [f]).Pairwise (fun x y => x ≤ y) →
    (∃ r ∈ rs, r.1 = f ∧ r.2 = true) → w.LastTickedFrame = f := by
  induction calls with
  | nil =>
    intro w0 w rs h _ hex
    simp only [RunCalls, Option.some.injEq, Prod.mk.injEq] at h
    obtain ⟨x, hx, -⟩ := hex
    rw [← h.1] at hx
    exact absurd hx (List.not_mem_nil _)
  | cons c rest ih =>
    intro w0 w rs h hmono hex
    cases c with
    | Paint a g =>
      simp only [RunCalls] at h
      cases hp : PaintRetainedContent This a g w0 with
      | none => simp [hp] at h
      | some res =>
        obtain ⟨r, g1, w1⟩ := res
        simp only [hp] at h
        cases hr : RunCalls This rest w1 with
        | none => simp [hr] at h
        | some res2 =>
          obtain ⟨rs2, w2⟩ := res2
          simp only [hr, Option.some.injEq, Prod.mk.injEq] at h
          obtain ⟨hrs, hw⟩ := h
          subst hrs hw
          simp only [List.map_cons, List.cons_append, List.pairwise_cons] at hmono
          obtain ⟨hhead, htail⟩ := hmono
          obtain ⟨x, hx, hxf, hxr⟩ := hex
          rcases List.mem_cons.mp hx with hx | hx
          · subst hx
            simp only at hxf hxr
            obtain ⟨-, -, -, -, -, e6, -⟩ := PaintRetainedContent_effect hp
            refine RunCalls_LastTickedFrame_const This f rest w1 w2 rs2 hr ?_ (hxf ▸ (e6 hxr).1)
            intro y hy
            have h1 : g.GFrameCounter ≤ y.1 :=
              hhead y.1 (List.mem_append_left _ (List.mem_map_of_mem _ hy))
            have h2 : y.1 ≤ f :=
              (List.pairwise_append.mp htail).2.2 y.1 (List.mem_map_of_mem _ hy) f
                (List.mem_singleton_self f)
            omega
          · exact ih w1 w2 rs2 hr htail ⟨x, hx, hxf, hxr⟩
    | InvalidateWidget =>
      simp only [RunCalls] at h
      exact ih _ w rs h hmono hex
    | RequestRender =>
      simp only [RunCalls] at h
      exact ih _ w rs h hmono hex
    | OnGlobalInvalidate =>
      simp only [RunCalls] at h
      exact ih _ w rs h hmono hex
    | SetRenderingPhase p pc =>
      simp only [RunCalls] at h
      exact ih _ w rs h hmono hex

/-- C4: after any history of calls on the box in which the frame counter never decreases, with
phase count at least 1, the phase rule of a paint call at frame counter `f` is defined, and it
sets the request flag (`b = true`: line 343 runs) only if render-on-phase is enabled,
`f mod PhaseCount = Phase`, and no paint call of the history at frame counter `f` has
re-rendered. Phase and phase count are `int32` values. -/
theorem C4_phase_rule_only_if (This f : Nat) (calls : List FWidgetCall)
    (w0 w : SUIRetainerBoxWidget) (rs : List (Nat × Bool))
    (hhist : RunCalls This calls w0 = some (rs, w))
    (hmono : (rs.map Prod.fst ++ [f]).Pairwise (fun x y => x ≤ y))
    (hpc1 : 1 ≤ w.PhaseCount) (hpc2 : w.PhaseCount < 2 ^ 31)
    (hph1 : -2 ^ 31 ≤ w.Phase) (hph2 : w.Phase < 2 ^ 31) :
    ∃ b, PaintRetainedContent_phaseRule w f = some b ∧
      (b = true → w.RenderOnPhase = true ∧ (f : Int) % w.PhaseCount = w.Phase ∧
        ∀ r ∈ rs, r.1 = f → r.2 = false) := by
  have hnz : toUInt64 w.PhaseCount ≠ 0 := by
    unfold toUInt64
    have : w.PhaseCount % 2 ^ 64 = w.PhaseCount := Int.emod_eq_of_lt (by omega) (by omega)
    rw [this]
    omega
  obtain ⟨b, hb⟩ := PaintRetainedContent_phaseRule_defined w f (fun _ => hnz)
  refine ⟨b, hb, fun hbt => ?_⟩
  subst hbt
  obtain ⟨h1, h2, -, h4⟩ := PaintRetainedContent_phaseRule_true hb
  refine ⟨h1, toUInt64_mod_eq hpc1 hpc2 hph1 hph2 h4, fun r hr hrf => ?_⟩
  cases hres : r.2
  · rfl
  · exact absurd (RunCalls_serviced This f calls w0 w rs hhist hmono ⟨r, hr, hrf, hres⟩) h2

/-- C4 at a concrete history: phase 2 of 4, one re-render at frame 5, the rule at frame 6. -/
theorem C4_phase_rule_only_if_witness :
    ∃ b, PaintRetainedContent_phaseRule examplePainted.2.2 6 = some b ∧
      (b = true → examplePainted.2.2.RenderOnPhase = true ∧
        ((6 : Nat) : Int) % examplePainted.2.2.PhaseCount = examplePainted.2.2.Phase ∧
        ∀ r ∈ [((5 : Nat), true)], r.1 = 6 → r.2 = false) :=
  C4_phase_rule_only_if 1 6
    [FWidgetCall.Paint (examplePaintInput 10 10) (exampleGlobals 5 1)]
    (exampleWidget (exampleRenderTarget true 0) EUIRetainerBoxColourSpace.Linear true 2 4)
    examplePainted.2.2 [(5, true)]
    (by decide) (by decide) (by decide) (by decide) (by decide) (by decide)
/-! ## C3: no re-render without a reason -/

theorem PaintRetainedContent_phaseRule_false {w : SUIRetainerBoxWidget} {f : Nat}
    (h : w.RenderOnPhase = false ∨
      (toUInt64 w.PhaseCount ≠ 0 ∧ f % toUInt64 w.PhaseCount ≠ toUInt64 w.Phase)) :
    PaintRetainedContent_phaseRule w f = some false := by
  unfold PaintRetainedContent_phaseRule
  rcases h with h | ⟨h1, h2⟩
  · simp [h]
  · cases hp : w.RenderOnPhase
    · simp
    · by_cases hl : w.LastTickedFrame = f
      · simp [hl]
      · simp [hl, h1, h2]

theorem QuietCall_congr {s : FVector2D} {v : Bool} {w w1 : SUIRetainerBoxWidget}
    (h1 : w1.RenderOnPhase = w.RenderOnPhase) (h2 : w1.Phase = w.Phase)
    (h3 : w1.PhaseCount = w.PhaseCount) {c : FWidgetCall} (h : QuietCall s v w c) :
    QuietCall s v w1 c := by
  cases c <;> simp only [QuietCall] at h ⊢
  rw [h1, h2, h3]
  exact h

theorem PaintRetainedContent_quiet (This : Nat) (a : FPaintInput) (g : FGlobals)
    (w : SUIRetainerBoxWidget) (hreq : w.bRenderRequested = false)
    (hsize : a.RenderSize = w.PreviousRenderSize)
    (hphase : w.RenderOnPhase = false ∨
      (toUInt64 w.PhaseCount ≠ 0 ∧ g.GFrameCounter % toUInt64 w.PhaseCount ≠ toUInt64 w.Phase)) :
    ∃ g1, PaintRetainedContent This a g w = some (false, g1, w) := by
  rw [PaintRetainedContent_eq, PaintRetainedContent_phaseRule_false hphase]
  by_cases ht : PaintRetainedContent_throttled g = true
  · refine ⟨{ g with Shared_WaitingToRender :=
      TArray_AddUnique g.Shared_WaitingToRender This }, ?_⟩
    obtain ⟨p, b1, b2, b3, b4, b5, b6, req, ltf, rr, n, l, i, c⟩ := w
    simp only at hreq
    subst hreq
    simp [ht]
  · exact ⟨g, by simp [ht, hreq, hsize]⟩

theorem RunCalls_quiet (This : Nat) (s : FVector2D) (v : Bool) (calls : List FWidgetCall) :
    ∀ w : SUIRetainerBoxWidget, w.bRenderRequested = false → w.PreviousRenderSize = s →
    w.RenderOnInvalidation = false → (∀ c ∈ calls, QuietCall s v w c) →
    ∃ rs, RunCalls This calls w = some (rs, w) ∧ ∀ r ∈ rs, r.2 = false := by
  induction calls with
  | nil =>
    intro w _ _ _ _
    exact ⟨[], rfl, fun r hr => absurd hr (List.not_mem_nil _)⟩
  | cons c rest ih =>
    intro w hreq hprev hinv hq
    have hc := hq c (List.mem_cons_self _ _)
    obtain ⟨rs, hrs, hall⟩ := ih w hreq hprev hinv
      (fun c' hc' => hq c' (List.mem_cons_of_mem _ hc'))
    cases c with
    | Paint a g =>
      simp only [QuietCall] at hc
      obtain ⟨g1, h1⟩ := PaintRetainedContent_quiet This a g w hreq (hc.1.trans hprev.symm) hc.2.2
      refine ⟨(g.GFrameCounter, false) :: rs, ?_, ?_⟩
      · simp only [RunCalls, h1, hrs]
      · intro r hr
        rcases List.mem_cons.mp hr with hr | hr
        · rw [hr]
        · exact hall r hr
    | InvalidateWidget =>
      refine ⟨rs, ?_, hall⟩
      simp only [RunCalls, InvalidateWidget, hinv, Bool.false_eq_true, if_false, hrs]
    | RequestRender => simp only [QuietCall] at hc
    | OnGlobalInvalidate => simp only [QuietCall] at hc
    | SetRenderingPhase p pc => simp only [QuietCall] at hc

/-- C3: on a box with render-on-invalidation off, take any sequence of `Paint` calls, all with
the same render size and visibility, each at a frame where render-on-phase is off or the phase
condition is not met, with `InvalidateWidget` callbacks in between but no `RequestRender`
or global invalidation. Every call returns, and once a `Paint` call has returned true every
later one returns false. -/
theorem C3_no_second_render (This : Nat) (s : FVector2D) (v : Bool)
    (calls : List FWidgetCall) :
    ∀ w : SUIRetainerBoxWidget, w.RenderOnInvalidation = false →
    (∀ c ∈ calls, QuietCall s v w c) →
    ∃ rs w2, RunCalls This calls w = some (rs, w2) ∧
      rs.Pairwise (fun x y => x.2 = true → y.2 = false) := by
  induction calls with
  | nil =>
    intro w _ _
    exact ⟨[], w, rfl, List.Pairwise.nil⟩
  | cons c rest ih =>
    intro w hinv hq
    have hc := hq c (List.mem_cons_self _ _)
    have hrest : ∀ c' ∈ rest, QuietCall s v w c' :=
      fun c' hc' => hq c' (List.mem_cons_of_mem _ hc')
    cases c with
    | Paint a g =>
      simp only [QuietCall] at hc
      have hdef : w.RenderOnPhase = true → toUInt64 w.PhaseCount ≠ 0 := by
        intro hp
        rcases hc.2.2 with h | h
        · rw [hp] at h; exact absurd h (by simp)
        · exact h.1
      obtain ⟨r, g1, w1, h1⟩ := PaintRetainedContent_defined This a g w hdef
      obtain ⟨e1, e2, e3, e4, -, e6, -⟩ := PaintRetainedContent_effect h1
      have hrest1 : ∀ c' ∈ rest, QuietCall s v w1 c' :=
        fun c' hc' => QuietCall_congr e1 e2 e3 (hrest c' hc')
      obtain ⟨rs, w2, hrun, hpw⟩ := ih w1 (e4.trans hinv) hrest1
      refine ⟨(g.GFrameCounter, r) :: rs, w2, ?_, ?_⟩
      · simp only [RunCalls, h1, hrun]
      · refine List.Pairwise.cons ?_ hpw
        intro y hy hr
        simp only at hr
        obtain ⟨-, hreq1, hprev1⟩ := e6 hr
        obtain ⟨rs', hrun', hall⟩ := RunCalls_quiet This s v rest w1 hreq1
          (hprev1.trans hc.1) (e4.trans hinv) hrest1
        rw [hrun] at hrun'
        simp only [Option.some.injEq, Prod.mk.injEq] at hrun'
        rw [hrun'.1] at hy
        exact hall y hy
    | InvalidateWidget =>
      have hw : InvalidateWidget w = w := by
        simp only [InvalidateWidget, hinv, Bool.false_eq_true, if_false]
      obtain ⟨rs, w2, hrun, hpw⟩ := ih w hinv hrest
      exact ⟨rs, w2, by simp only [RunCalls, hw, hrun], hpw⟩
    | RequestRender => simp only [QuietCall] at hc
    | OnGlobalInvalidate => simp only [QuietCall] at hc
    | SetRenderingPhase p pc => simp only [QuietCall] at hc

/-- C3 at a concrete sequence: phase 2 of 4, paints at frames 5, 7 and 8 with an invalidation
in between. -/
theorem C3_no_second_render_witness :
    ∃ rs w2, RunCalls 1
        [FWidgetCall.Paint (examplePaintInput 10 10) (exampleGlobals 5 1),
         FWidgetCall.InvalidateWidget,
         FWidgetCall.Paint (examplePaintInput 10 10) (exampleGlobals 7 1),
         FWidgetCall.Paint (examplePaintInput 10 10) (exampleGlobals 8 1)]
        (exampleWidget (exampleRenderTarget true 0) EUIRetainerBoxColourSpace.Linear true 2 4) =
        some (rs, w2) ∧
      rs.Pairwise (fun x y => x.2 = true → y.2 = false) :=
  C3_no_second_render 1 ⟨10, 10⟩ true
    [FWidgetCall.Paint (examplePaintInput 10 10) (exampleGlobals 5 1),
     FWidgetCall.InvalidateWidget,
     FWidgetCall.Paint (examplePaintInput 10 10) (exampleGlobals 7 1),
     FWidgetCall.Paint (examplePaintInput 10 10) (exampleGlobals 8 1)]
    (exampleWidget (exampleRenderTarget true 0) EUIRetainerBoxColourSpace.Linear true 2 4)
    (by decide) (by decide)

/-! ## C1: the budget -/

/-- C1, the code at the failing input: budget 1, frame 5, counter unset, every box retaining
with a request pending, visible content and size 10 x 10. With two boxes both re-render and
nobody waits (the claim: one renders, one waits); with three boxes the first two re-render and
only box 3 waits (the claim: one renders, two wait). -/
theorem C1_budget_admits_one_more :
    (PaintBoxes
        [(1, examplePaintInput 10 10,
            exampleWidget (exampleRenderTarget true 0) EUIRetainerBoxColourSpace.Linear true 0 1),
         (2, examplePaintInput 10 10,
            exampleWidget (exampleRenderTarget true 0) EUIRetainerBoxColourSpace.Linear true 0 1)]
        (exampleGlobals 5 1)).map (fun r => (r.1, r.2.Shared_WaitingToRender)) =
      some ([true, true], []) ∧
    (PaintBoxes
        [(1, examplePaintInput 10 10,
            exampleWidget (exampleRenderTarget true 0) EUIRetainerBoxColourSpace.Linear true 0 1),
         (2, examplePaintInput 10 10,
            exampleWidget (exampleRenderTarget true 0) EUIRetainerBoxColourSpace.Linear true 0 1),
         (3, examplePaintInput 10 10,
            exampleWidget (exampleRenderTarget true 0) EUIRetainerBoxColourSpace.Linear true 0 1)]
        (exampleGlobals 5 1)).map (fun r => (r.1, r.2.Shared_WaitingToRender)) =
      some ([true, true, false], [3]) := by
  decide

theorem PaintRetainedContent_requested (b : Nat × FPaintInput × SUIRetainerBoxWidget)
    (g : FGlobals) (hb : RequestsRender b) (ht : PaintRetainedContent_throttled g = false) :
    ∃ g1 w1, PaintRetainedContent b.1 b.2.1 g b.2.2 = some (true, g1, w1) ∧
      g1.GFrameCounter = g.GFrameCounter ∧
      g1.Shared_MaxRetainerWorkPerFrame = g.Shared_MaxRetainerWorkPerFrame ∧
      g1.Shared_RetainerWorkThisFrame.TryGetValue g1.GFrameCounter 0 =
        g.Shared_RetainerWorkThisFrame.TryGetValue g.GFrameCounter 0 + 1 ∧
      g1.Shared_WaitingToRender = TArray_Remove g.Shared_WaitingToRender b.1 := by
  obtain ⟨hreq, hvis, hW, hH, hdef⟩ := hb
  obtain ⟨bp, hbp⟩ := PaintRetainedContent_phaseRule_defined b.2.2 g.GFrameCounter hdef
  obtain ⟨g3, w3, h3, hg3, -⟩ := PaintRetainedContent_render_drawn b.1 b.2.1 g
    { b.2.2 with PreviousRenderSize := b.2.1.RenderSize, bRenderRequested := true } hW hH hvis
  refine ⟨g3, w3, ?_, ?_, ?_, ?_, ?_⟩
  · rw [PaintRetainedContent_eq, hbp]
    simp only [ht, Bool.false_eq_true, if_false, hreq, or_true, if_true]
    exact h3
  all_goals rw [hg3]
  all_goals simp [PaintRetainedContent_countWork, TFrameValue.TryGetValue, TFrameValue.Assign]

theorem PaintRetainedContent_deferred (b : Nat × FPaintInput × SUIRetainerBoxWidget)
    (g : FGlobals) (hb : RequestsRender b) (ht : PaintRetainedContent_throttled g = true) :
    ∃ w1, PaintRetainedContent b.1 b.2.1 g b.2.2 =
      some (false,
        { g with Shared_WaitingToRender := TArray_AddUnique g.Shared_WaitingToRender b.1 },
        w1) := by
  obtain ⟨bp, hbp⟩ := PaintRetainedContent_phaseRule_defined b.2.2 g.GFrameCounter hb.2.2.2.2
  refine ⟨{ b.2.2 with bRenderRequested := bp || b.2.2.bRenderRequested }, ?_⟩
  rw [PaintRetainedContent_eq, hbp]
  simp only [ht, if_true]

theorem PaintBoxes_deferred (bs : List (Nat × FPaintInput × SUIRetainerBoxWidget)) :
    ∀ g : FGlobals, (∀ b ∈ bs, RequestsRender b) → PaintRetainedContent_throttled g = true →
    ∃ g2, PaintBoxes bs g = some (List.replicate bs.length false, g2) ∧
      g2.Shared_WaitingToRender =
        (bs.map Prod.fst).foldl TArray_AddUnique g.Shared_WaitingToRender := by
  induction bs with
  | nil =>
    intro g _ _
    exact ⟨g, rfl, rfl⟩
  | cons b rest ih =>
    intro g hall ht
    obtain ⟨w1, h1⟩ := PaintRetainedContent_deferred b g (hall b (List.mem_cons_self _ _)) ht
    obtain ⟨g2, h2, hw2⟩ := ih
      { g with Shared_WaitingToRender := TArray_AddUnique g.Shared_WaitingToRender b.1 }
      (fun b' hb' => hall b' (List.mem_cons_of_mem _ hb')) ht
    obtain ⟨This, a, w⟩ := b
    refine ⟨g2, ?_, ?_⟩
    · simp only [PaintBoxes, h1, h2, List.length_cons, List.replicate_succ]
    · rw [hw2]
      rfl

/-- What the budget test does within one frame: with budget `N > 0` and `j` re-renders left
until the counter exceeds `N` (counter `+ j = N + 1`), the first `j` boxes that request a
render re-render and all later ones are deferred. -/
theorem PaintBoxes_budget (N : Nat) (hN : 0 < N)
    (bs : List (Nat × FPaintInput × SUIRetainerBoxWidget)) :
    ∀ (g : FGlobals) (j : Nat), (∀ b ∈ bs, RequestsRender b) →
    g.Shared_MaxRetainerWorkPerFrame = N →
    g.Shared_RetainerWorkThisFrame.TryGetValue g.GFrameCounter 0 + j = N + 1 →
    ∃ g2, PaintBoxes bs g =
        some (List.replicate (min bs.length j) true ++ List.replicate (bs.length - j) false, g2) ∧
      g2.Shared_WaitingToRender =
        ((bs.drop j).map Prod.fst).foldl TArray_AddUnique
          (((bs.take j).map Prod.fst).foldl TArray_Remove g.Shared_WaitingToRender) := by
  induction bs with
  | nil =>
    intro g j _ _ _
    exact ⟨g, by simp [PaintBoxes], by simp⟩
  | cons b rest ih =>
    intro g j hall hmax hwork
    cases j with
    | zero =>
      have ht : PaintRetainedContent_throttled g = true := by
        simp only [PaintRetainedContent_throttled, hmax, Bool.and_eq_true, decide_eq_true_eq]
        constructor <;> omega
      obtain ⟨g2, h2, hw2⟩ := PaintBoxes_deferred (b :: rest) g hall ht
      exact ⟨g2, by simpa using h2, by simpa using hw2⟩
    | succ j =>
      have ht : PaintRetainedContent_throttled g = false := by
        simp only [PaintRetainedContent_throttled, hmax, Bool.and_eq_false_iff,
          decide_eq_false_iff_not]
        right
        omega
      obtain ⟨g1, w1, h1, e1, e2, e3, e4⟩ :=
        PaintRetainedContent_requested b g (hall b (List.mem_cons_self _ _)) ht
      obtain ⟨g2, h2, hw2⟩ := ih g1 j (fun b' hb' => hall b' (List.mem_cons_of_mem _ hb'))
        (e2.trans hmax) (by rw [e3]; omega)
      obtain ⟨This, a, w⟩ := b
      refine ⟨g2, ?_, ?_⟩
      · simp only [PaintBoxes, h1, h2, List.length_cons, Nat.add_sub_add_right,
          Nat.add_min_add_right, List.replicate_succ, List.cons_append]
      · rw [hw2, e4]
        rfl

theorem TArray_Remove_foldl_nil (l : List Nat) : l.foldl TArray_Remove [] = [] := by
  induction l with
  | nil => rfl
  | cons x rest ih => simpa [TArray_Remove] using ih

theorem TArray_AddUnique_foldl (l : List Nat) :
    ∀ acc : List Nat, (acc ++ l).Nodup → l.foldl TArray_AddUnique acc = acc ++ l := by
  induction l with
  | nil => intro acc _; simp
  | cons x rest ih =>
    intro acc h
    have hx : x ∉ acc := by
      intro hmem
      have := List.nodup_append.mp h
      exact this.2.2 hmem (List.mem_cons_self _ _)
    have h' : ((acc ++ [x]) ++ rest).Nodup := by simpa using h
    simp only [List.foldl_cons, TArray_AddUnique, hx, if_false]
    rw [ih (acc ++ [x]) h']
    simp

/-- The budget within one frame, from the claim's starting point: budget `N > 0`, counter at
0, nobody waiting, `M > N` distinct boxes that all request a render. The first `N + 1` boxes
re-render and exactly the remaining `M - (N + 1)` boxes are in the waiting array afterwards. -/
theorem PaintBoxes_budget_from_zero (N : Nat) (hN : 0 < N)
    (bs : List (Nat × FPaintInput × SUIRetainerBoxWidget)) (g : FGlobals)
    (hall : ∀ b ∈ bs, RequestsRender b)
    (hmax : g.Shared_MaxRetainerWorkPerFrame = N)
    (hzero : g.Shared_RetainerWorkThisFrame.TryGetValue g.GFrameCounter 0 = 0)
    (hwait : g.Shared_WaitingToRender = [])
    (hids : (bs.map Prod.fst).Nodup) (hM : N < bs.length) :
    ∃ g2, PaintBoxes bs g =
        some (List.replicate (N + 1) true ++ List.replicate (bs.length - (N + 1)) false, g2) ∧
      g2.Shared_WaitingToRender = (bs.drop (N + 1)).map Prod.fst := by
  obtain ⟨g2, h2, hw2⟩ := PaintBoxes_budget N hN bs g (N + 1) hall hmax (by rw [hzero]; simp)
  refine ⟨g2, ?_, ?_⟩
  · rw [h2, Nat.min_eq_right (by omega)]
  · rw [hw2, hwait, TArray_Remove_foldl_nil, TArray_AddUnique_foldl _ [] ?_]
    · simp
    · rw [List.nil_append]
      exact hids.sublist ((List.drop_sublist _ _).map Prod.fst)

/-! ## The invariants assumed above are maintained by `PaintRetainedContent` -/

theorem TArray_AddUnique_nodup (l : List Nat) (x : Nat) (h : l.Nodup) :
    (TArray_AddUnique l x).Nodup := by
  unfold TArray_AddUnique
  by_cases hx : x ∈ l
  · simpa [hx] using h
  · simp only [hx, if_false]
    exact List.Nodup.append h (List.nodup_singleton x) (by simpa using hx)

theorem TArray_Remove_nodup (l : List Nat) (x : Nat) (h : l.Nodup) :
    (TArray_Remove l x).Nodup :=
  h.sublist (List.filter_sublist l)

/-- The waiting array never holds a box twice: `PaintRetainedContent` keeps it free of
duplicates. -/
theorem PaintRetainedContent_waiting_nodup {This : Nat} {a : FPaintInput} {g : FGlobals}
    {w : SUIRetainerBoxWidget} {r : Bool} {g2 : FGlobals} {w2 : SUIRetainerBoxWidget}
    (h : PaintRetainedContent This a g w = some (r, g2, w2))
    (hset : g.Shared_WaitingToRender.Nodup) : g2.Shared_WaitingToRender.Nodup := by
  rw [PaintRetainedContent_eq] at h
  cases hb : PaintRetainedContent_phaseRule w g.GFrameCounter with
  | none => simp [hb] at h
  | some b =>
    simp only [hb] at h
    by_cases ht : PaintRetainedContent_throttled g = true
    · simp only [ht, if_true, Option.some.injEq, Prod.mk.injEq] at h
      rw [← h.2.1]
      exact TArray_AddUnique_nodup _ _ hset
    · simp only [ht, Bool.false_eq_true, if_false] at h
      by_cases hq : b = true ∨ a.RenderSize ≠ w.PreviousRenderSize ∨ w.bRenderRequested = true
      · simp only [hq, if_true] at h
        have e := (PaintRetainedContent_render_effect h).2.2.2.2.2.2.2.2.2.2.2.2
        rw [e]
        cases r
        · exact hset
        · exact TArray_Remove_nodup _ _ hset
      · simp only [hq, if_false, Option.some.injEq, Prod.mk.injEq] at h
        rw [← h.2.1]
        exact hset

theorem PaintRetainedContent_draw_wellFormed {This K : Nat} {g : FGlobals}
    {w : SUIRetainerBoxWidget} {r : Bool} {g2 : FGlobals} {w2 : SUIRetainerBoxWidget}
    (h : PaintRetainedContent_draw This K g w = some (r, g2, w2))
    (hc : w.LastUsedCachedNodeIndex ≤ w.NodePool.length) (hwf : NodePoolWellFormed g w) :
    NodePoolWellFormed g2 w2 ∧ w2.LastUsedCachedNodeIndex ≤ w2.NodePool.length := by
  obtain ⟨n, g1, w1, h1, -, -, hle1, -, -, hwf1⟩ := CreateCacheNode_spec g w hc
  obtain ⟨ns, g3, w3, h3, -, -, hle3, -, hwf3⟩ :=
    CreateCacheNodes_spec K g1 { w1 with RootCacheNode := some n } hle1
  simp only [PaintRetainedContent_draw, h1, h3, Option.some.injEq, Prod.mk.injEq] at h
  obtain ⟨-, hg, hw⟩ := h
  subst hg hw
  exact ⟨hwf3 (hwf1 hwf), hle3⟩

/-- The heap invariant of the node pool and the bound on the cursor are maintained by
`PaintRetainedContent`. -/
theorem PaintRetainedContent_wellFormed {This : Nat} {a : FPaintInput} {g : FGlobals}
    {w : SUIRetainerBoxWidget} {r : Bool} {g2 : FGlobals} {w2 : SUIRetainerBoxWidget}
    (h : PaintRetainedContent This a g w = some (r, g2, w2))
    (hc : w.LastUsedCachedNodeIndex ≤ w.NodePool.length) (hwf : NodePoolWellFormed g w) :
    NodePoolWellFormed g2 w2 ∧ w2.LastUsedCachedNodeIndex ≤ w2.NodePool.length := by
  rw [PaintRetainedContent_eq] at h
  cases hb : PaintRetainedContent_phaseRule w g.GFrameCounter with
  | none => simp [hb] at h
  | some b =>
    simp only [hb] at h
    by_cases ht : PaintRetainedContent_throttled g = true
    · simp only [ht, if_true, Option.some.injEq, Prod.mk.injEq] at h
      obtain ⟨-, hg, hw⟩ := h
      subst hg hw
      exact ⟨hwf, hc⟩
    · simp only [ht, Bool.false_eq_true, if_false] at h
      by_cases hq : b = true ∨ a.RenderSize ≠ w.PreviousRenderSize ∨ w.bRenderRequested = true
      · simp only [hq, if_true] at h
        by_cases hd : toUInt32 (RoundToInt a.RenderSize.X) ≠ 0 ∧
            toUInt32 (RoundToInt a.RenderSize.Y) ≠ 0 ∧ a.bContentVisible = true
        · simp only [PaintRetainedContent_render, hd.1, hd.2.1, hd.2.2, ne_eq,
            not_false_eq_true, and_self, if_true] at h
          exact PaintRetainedContent_draw_wellFormed h (Nat.zero_le _) hwf
        · rw [PaintRetainedContent_render_skipped _ _ _ _ hd] at h
          simp only [Option.some.injEq, Prod.mk.injEq] at h
          obtain ⟨-, hg, hw⟩ := h
          subst hg hw
          exact ⟨hwf, Nat.zero_le _⟩
      · simp only [hq, if_false, Option.some.injEq, Prod.mk.injEq] at h
        obtain ⟨-, hg, hw⟩ := h
        subst hg hw
        exact ⟨hwf, hc⟩

/-! ## C11: the quad drawn by `OnPaint` -/

theorem PaintRetainedContent_ColourSpace {This : Nat} {a : FPaintInput} {g : FGlobals}
    {w : SUIRetainerBoxWidget} {r : Bool} {g2 : FGlobals} {w2 : SUIRetainerBoxWidget}
    (h : PaintRetainedContent This a g w = some (r, g2, w2)) :
    w2.ColourSpace = w.ColourSpace := by
  rw [PaintRetainedContent_eq] at h
  cases hb : PaintRetainedContent_phaseRule w g.GFrameCounter with
  | none => simp [hb] at h
  | some b =>
    simp only [hb] at h
    by_cases ht : PaintRetainedContent_throttled g = true
    · simp only [ht, if_true, Option.some.injEq, Prod.mk.injEq] at h
      rw [← h.2.2]
    · simp only [ht, Bool.false_eq_true, if_false] at h
      by_cases hq : b = true ∨ a.RenderSize ≠ w.PreviousRenderSize ∨ w.bRenderRequested = true
      · simp only [hq, if_true] at h
        by_cases hd : toUInt32 (RoundToInt a.RenderSize.X) ≠ 0 ∧
            toUInt32 (RoundToInt a.RenderSize.Y) ≠ 0 ∧ a.bContentVisible = true
        · obtain ⟨g3, w3, h3, -, hw3⟩ := PaintRetainedContent_render_drawn This a g
            { w with PreviousRenderSize := a.RenderSize, bRenderRequested := true }
            hd.1 hd.2.1 hd.2.2
          rw [h3] at h
          simp only [Option.some.injEq, Prod.mk.injEq] at h
          rw [← h.2.2, hw3]
        · rw [PaintRetainedContent_render_skipped _ _ _ _ hd] at h
          simp only [Option.some.injEq, Prod.mk.injEq] at h
          rw [← h.2.2]
          rfl
      · simp only [hq, if_false, Option.some.injEq, Prod.mk.injEq] at h
        rw [← h.2.2]

theorem RefreshRenderingMode_ColourSpace (g : FGlobals) (w : SUIRetainerBoxWidget) :
    (RefreshRenderingMode g w).ColourSpace = w.ColourSpace := by
  unfold RefreshRenderingMode
  simp only
  split <;> rfl

theorem OnPaint_Box_eq {This : Nat} {i : FOnPaintInput} {g : FGlobals}
    {w : SUIRetainerBoxWidget} {out : FOnPaintOutput} {g2 : FGlobals}
    {w2 : SUIRetainerBoxWidget} {q : FSlateDrawElement}
    (h : OnPaint This i g w = some (out, g2, w2)) (hq : out.Box = some q) :
    q = OnPaint_MakeBox w.ColourSpace (OnPaint_ComputedColorAndOpacity i) := by
  unfold OnPaint at h
  simp only at h
  split at h
  · cases hp : PaintRetainedContent This i.Paint g (RefreshRenderingMode g w) with
    | none => simp [hp] at h
    | some res =>
      obtain ⟨b, g3, w3⟩ := res
      have hc : w3.ColourSpace = w.ColourSpace :=
        (PaintRetainedContent_ColourSpace hp).trans (RefreshRenderingMode_ColourSpace g w)
      simp only [hp] at h
      split at h
      · simp only [Option.some.injEq, Prod.mk.injEq] at h
        rw [← h.1] at hq
        simp only [Option.some.injEq] at hq
        rw [← hq, hc]
      · simp only [Option.some.injEq, Prod.mk.injEq] at h
        rw [← h.1] at hq
        simp at hq
  · simp only [Option.some.injEq, Prod.mk.injEq] at h
    rw [← h.1] at hq
    simp at hq

/-- C11 as amended: whenever `OnPaint` draws the quad for a computed tint `(r, g, b, a)` with
`a ≠ 0`, then (1) if the configured colour space is not linear, the quad uses
premultiplied-alpha blending with gamma disabled and its colour is the un-premultiplied tint
`(r/a, g/a, b/a)` with alpha `a` (multiplying it by `a` gives `r, g, b` back); (2) if the
colour space is linear, the quad has no draw effect and its colour is the tint multiplied by
its alpha, `(r*a, g*a, b*a)` with alpha `a*a`. -/
theorem C11_quad_amended (This : Nat) (i : FOnPaintInput) (g g2 : FGlobals)
    (w w2 : SUIRetainerBoxWidget) (out : FOnPaintOutput) (q : FSlateDrawElement)
    (h : OnPaint This i g w = some (out, g2, w2)) (hq : out.Box = some q)
    (ha : (OnPaint_ComputedColorAndOpacity i).A ≠ 0) :
    (w.ColourSpace ≠ EUIRetainerBoxColourSpace.Linear →
      q.DrawEffects = { bPreMultipliedAlpha := true, bNoGamma := true } ∧
      q.Tint =
        { R := (OnPaint_ComputedColorAndOpacity i).R / (OnPaint_ComputedColorAndOpacity i).A,
          G := (OnPaint_ComputedColorAndOpacity i).G / (OnPaint_ComputedColorAndOpacity i).A,
          B := (OnPaint_ComputedColorAndOpacity i).B / (OnPaint_ComputedColorAndOpacity i).A,
          A := (OnPaint_ComputedColorAndOpacity i).A } ∧
      q.Tint.R * q.Tint.A = (OnPaint_ComputedColorAndOpacity i).R ∧
      q.Tint.G * q.Tint.A = (OnPaint_ComputedColorAndOpacity i).G ∧
      q.Tint.B * q.Tint.A = (OnPaint_ComputedColorAndOpacity i).B) ∧
    (w.ColourSpace = EUIRetainerBoxColourSpace.Linear →
      q.DrawEffects = { bPreMultipliedAlpha := false, bNoGamma := false } ∧
      q.Tint =
        { R := (OnPaint_ComputedColorAndOpacity i).R * (OnPaint_ComputedColorAndOpacity i).A,
          G := (OnPaint_ComputedColorAndOpacity i).G * (OnPaint_ComputedColorAndOpacity i).A,
          B := (OnPaint_ComputedColorAndOpacity i).B * (OnPaint_ComputedColorAndOpacity i).A,
          A := (OnPaint_ComputedColorAndOpacity i).A * (OnPaint_ComputedColorAndOpacity i).A }) := by
  have hbox := OnPaint_Box_eq h hq
  subst hbox
  constructor
  · intro hc
    simp only [OnPaint_MakeBox, hc, ne_eq, not_false_eq_true, if_true, FLinearColor.Div]
    refine ⟨trivial, trivial, ?_, ?_, ?_⟩ <;> exact div_mul_cancel₀ _ ha
  · intro hc
    simp only [OnPaint_MakeBox, hc, ne_eq, not_true_eq_false, if_false, FLinearColor.Scale]
    exact ⟨trivial, trivial⟩

theorem exampleOnPainted_eq (c : EUIRetainerBoxColourSpace) :
    OnPaint 1 (exampleOnPaintInput exampleTint) (exampleGlobals 5 1)
        (exampleWidget (exampleRenderTarget true 0) c false 0 1) =
      some ((exampleOnPainted c).1, (exampleOnPainted c).2.1,
        (exampleOnPainted c).2.2) ∧
    (exampleOnPainted c).1.Box =
      some (OnPaint_MakeBox c (OnPaint_ComputedColorAndOpacity (exampleOnPaintInput exampleTint))) := by
  have hs : ((OnPaint 1 (exampleOnPaintInput exampleTint) (exampleGlobals 5 1)
      (exampleWidget (exampleRenderTarget true 0) c false 0 1)).map
      fun r => r.1.Box.isSome) = some true := by
    cases c <;> decide
  have h1 : OnPaint 1 (exampleOnPaintInput exampleTint) (exampleGlobals 5 1)
        (exampleWidget (exampleRenderTarget true 0) c false 0 1) =
      some ((exampleOnPainted c).1, (exampleOnPainted c).2.1,
        (exampleOnPainted c).2.2) := by
    unfold exampleOnPainted
    cases ho : OnPaint 1 (exampleOnPaintInput exampleTint) (exampleGlobals 5 1)
        (exampleWidget (exampleRenderTarget true 0) c false 0 1) with
    | none => simp [ho] at hs
    | some r => rfl
  refine ⟨h1, ?_⟩
  rw [h1] at hs
  simp only [Option.map_some', Option.some.injEq] at hs
  obtain ⟨q, hq⟩ := Option.isSome_iff_exists.mp hs
  rw [hq, OnPaint_Box_eq h1 hq]
  rfl

/-- C11 fails as stated, for the computed tint `(1/4, 1/2, 1/2, 1/2)`. On the gamma-encoded
box the quad is drawn with premultiplied-alpha blending and gamma disabled, but its colour is
`(1/2, 1, 1)` with alpha `1/2`: the tint divided by its alpha, not the tint unchanged. On the
linear box the quad is drawn with no draw effect and colour `(1/8, 1/4, 1/4)` with alpha
`1/4`: the tint multiplied by its alpha, not divided by it. -/
theorem C11_quad_counterexample :
    ((OnPaint 1 (exampleOnPaintInput exampleTint) (exampleGlobals 5 1)
        (exampleWidget (exampleRenderTarget true 0) EUIRetainerBoxColourSpace.Gamma false 0 1)
      ).map fun r => r.1.Box) =
      some (some { DrawEffects := { bPreMultipliedAlpha := true, bNoGamma := true },
                   Tint := ⟨1 / 2, 1, 1, 1 / 2⟩ }) ∧
    ((OnPaint 1 (exampleOnPaintInput exampleTint) (exampleGlobals 5 1)
        (exampleWidget (exampleRenderTarget true 0) EUIRetainerBoxColourSpace.Linear false 0 1)
      ).map fun r => r.1.Box) =
      some (some { DrawEffects := { bPreMultipliedAlpha := false, bNoGamma := false },
                   Tint := ⟨1 / 8, 1 / 4, 1 / 4, 1 / 4⟩ }) := by
  constructor
  · rw [(exampleOnPainted_eq _).1, Option.map_some', (exampleOnPainted_eq _).2]
    have hne : EUIRetainerBoxColourSpace.Gamma ≠ EUIRetainerBoxColourSpace.Linear := by decide
    norm_num [OnPaint_MakeBox, OnPaint_ComputedColorAndOpacity, exampleOnPaintInput,
      FLinearColor.Mul, FLinearColor.Div, FLinearColor.Scale, FLinearColor.White, exampleTint,
      hne]
  · rw [(exampleOnPainted_eq _).1, Option.map_some', (exampleOnPainted_eq _).2]
    norm_num [OnPaint_MakeBox, OnPaint_ComputedColorAndOpacity, exampleOnPaintInput,
      FLinearColor.Mul, FLinearColor.Div, FLinearColor.Scale, FLinearColor.White, exampleTint]

/-- C11 amended at a concrete call: the gamma-encoded box with `exampleTint`. -/
theorem C11_quad_amended_witness :
    (exampleOnPainted EUIRetainerBoxColourSpace.Gamma).1.Box =
        some (OnPaint_MakeBox EUIRetainerBoxColourSpace.Gamma
          (OnPaint_ComputedColorAndOpacity (exampleOnPaintInput exampleTint))) ∧
      (OnPaint_MakeBox EUIRetainerBoxColourSpace.Gamma
          (OnPaint_ComputedColorAndOpacity
            (exampleOnPaintInput exampleTint))).DrawEffects =
        { bPreMultipliedAlpha := true, bNoGamma := true } :=
  ⟨(exampleOnPainted_eq _).2,
    ((C11_quad_amended 1 (exampleOnPaintInput exampleTint) (exampleGlobals 5 1)
      (exampleOnPainted EUIRetainerBoxColourSpace.Gamma).2.1
      (exampleWidget (exampleRenderTarget true 0) EUIRetainerBoxColourSpace.Gamma false 0 1)
      (exampleOnPainted EUIRetainerBoxColourSpace.Gamma).2.2
      (exampleOnPainted EUIRetainerBoxColourSpace.Gamma).1
      (OnPaint_MakeBox EUIRetainerBoxColourSpace.Gamma
        (OnPaint_ComputedColorAndOpacity (exampleOnPaintInput exampleTint)))
      (exampleOnPainted_eq _).1 (exampleOnPainted_eq _).2
      (by norm_num [OnPaint_ComputedColorAndOpacity, exampleOnPaintInput, FLinearColor.Mul,
        FLinearColor.White, exampleTint])).1 (by decide)).1⟩

/-! ## C12: the size of the node pool -/

theorem CreateCacheNode_length {g : FGlobals} {w : SUIRetainerBoxWidget} {n : Nat}
    {g1 : FGlobals} {w1 : SUIRetainerBoxWidget} (h : CreateCacheNode g w = some (n, g1, w1)) :
    w1.NodePool.length =
        (if w.LastUsedCachedNodeIndex ≥ w.NodePool.length then w.NodePool.length + 10
         else w.NodePool.length) ∧
      w1.LastUsedCachedNodeIndex = w.LastUsedCachedNodeIndex + 1 := by
  unfold CreateCacheNode at h
  by_cases hc : w.LastUsedCachedNodeIndex ≥ w.NodePool.length
  · simp only [hc, if_true] at h
    cases hget : (w.NodePool ++ List.range' g.HeapNext 10)[w.LastUsedCachedNodeIndex]? with
    | none => simp [hget] at h
    | some x =>
      simp only [hget, Option.some.injEq, Prod.mk.injEq] at h
      obtain ⟨-, -, hw⟩ := h
      subst hw
      simp [hc]
  · simp only [hc, if_false] at h
    cases hget : w.NodePool[w.LastUsedCachedNodeIndex]? with
    | none => simp [hget] at h
    | some x =>
      simp only [hget, Option.some.injEq, Prod.mk.injEq] at h
      obtain ⟨-, -, hw⟩ := h
      subst hw
      simp [hc]

theorem CreateCacheNodes_length (K : Nat) : ∀ (g : FGlobals) (w : SUIRetainerBoxWidget),
    w.LastUsedCachedNodeIndex ≤ w.NodePool.length → 10 ∣ w.NodePool.length →
    ∃ Nodes g2 w2, CreateCacheNodes K g w = some (Nodes, g2, w2) ∧
      w2.NodePool.length =
        max w.NodePool.length ((w.LastUsedCachedNodeIndex + K + 9) / 10 * 10) := by
  induction K with
  | zero =>
    intro g w hc hdvd
    refine ⟨[], g, w, rfl, ?_⟩
    obtain ⟨m, hm⟩ := hdvd
    omega
  | succ K ih =>
    intro g w hc hdvd
    obtain ⟨n, g1, w1, h1, -, -, hle1, -, -, -⟩ := CreateCacheNode_spec g w hc
    obtain ⟨hlen, hcur⟩ := CreateCacheNode_length h1
    have hdvd1 : 10 ∣ w1.NodePool.length := by
      rw [hlen]
      split
      · exact Dvd.dvd.add hdvd (dvd_refl 10)
      · exact hdvd
    obtain ⟨ns, g2, w2, h2, hlen2⟩ := ih g1 w1 hle1 hdvd1
    refine ⟨n :: ns, g2, w2, by simp only [CreateCacheNodes, h1, h2], ?_⟩
    rw [hlen2, hcur, hlen]
    obtain ⟨m, hm⟩ := hdvd
    split <;> omega

/-- C12 fails as stated: a first cycle of 11 calls on an empty pool leaves 20 nodes; after
the pool reset a cycle of one call still has 20 nodes in the pool, not 10. -/
theorem C12_pool_size_counterexample :
    ((CreateCacheNodes 11 (exampleGlobals 0 0)
        (exampleWidget (exampleRenderTarget true 0) EUIRetainerBoxColourSpace.Linear true 0 1)
      ).bind fun r1 =>
        (CreateCacheNodes 1 r1.2.1 (ResetCacheNodePool r1.2.2)).map fun r2 =>
          (r1.2.2.NodePool.length, r2.2.2.NodePool.length)) = some (20, 20) := by
  decide

/-- C12 as amended: the pool is never shrunk, so after `K` `CreateCacheNode` calls that follow
a pool reset the backing size is the larger of the size at the reset and `ceil(K/10)*10`.
The size at the reset is a multiple of 10 (`hten`): the pool starts empty and grows by ten.
On a pool that was empty at the reset the size is `ceil(K/10)*10`. -/
theorem C12_pool_size_amended (K : Nat) (g : FGlobals) (w : SUIRetainerBoxWidget)
    (hten : 10 ∣ w.NodePool.length) :
    ∃ Nodes g2 w2, CreateCacheNodes K g (ResetCacheNodePool w) = some (Nodes, g2, w2) ∧
      w2.NodePool.length = max w.NodePool.length ((K + 9) / 10 * 10) ∧
      (w.NodePool = [] → w2.NodePool.length = (K + 9) / 10 * 10) := by
  obtain ⟨ns, g2, w2, h, hlen⟩ :=
    CreateCacheNodes_length K g (ResetCacheNodePool w) (Nat.zero_le _) hten
  have h0 : (ResetCacheNodePool w).LastUsedCachedNodeIndex = 0 := rfl
  have hp : (ResetCacheNodePool w).NodePool = w.NodePool := rfl
  rw [h0, hp, Nat.zero_add] at hlen
  refine ⟨ns, g2, w2, h, hlen, fun he => ?_⟩
  rw [hlen, he]
  simp

/-- C12 amended at a concrete pool: 23 calls on a pool that starts empty. -/
theorem C12_pool_size_amended_witness :
    ∃ Nodes g2 w2, CreateCacheNodes 23 (exampleGlobals 0 0)
        (ResetCacheNodePool (exampleWidget (exampleRenderTarget true 0)
          EUIRetainerBoxColourSpace.Linear true 0 1)) = some (Nodes, g2, w2) ∧
      w2.NodePool.length =
        max (exampleWidget (exampleRenderTarget true 0)
          EUIRetainerBoxColourSpace.Linear true 0 1).NodePool.length ((23 + 9) / 10 * 10) ∧
      ((exampleWidget (exampleRenderTarget true 0)
          EUIRetainerBoxColourSpace.Linear true 0 1).NodePool = [] →
        w2.NodePool.length = (23 + 9) / 10 * 10) :=
  C12_pool_size_amended 23 (exampleGlobals 0 0)
    (exampleWidget (exampleRenderTarget true 0) EUIRetainerBoxColourSpace.Linear true 0 1)
    (by decide)

/-! ## C13: the phase count of a box configured through the panel -/

theorem toUInt64_ne_zero {pc : Int} (h1 : 1 ≤ pc) (h2 : pc < 2 ^ 31) : toUInt64 pc ≠ 0 := by
  unfold toUInt64
  have : pc % 2 ^ 64 = pc := Int.emod_eq_of_lt (by omega) (by omega)
  rw [this]
  omega

theorem UUIRetainerBox_SetRenderingPhase_PhaseCount (p : UUIRetainerBox) (a b : Int) :
    (UUIRetainerBox_SetRenderingPhase p a b).PhaseCount = max b 1 ∧
      match (UUIRetainerBox_SetRenderingPhase p a b).MyRetainerWidget with
      | some w => w.PhaseCount = max b 1
      | none => True := by
  unfold UUIRetainerBox_SetRenderingPhase
  by_cases hb : b < 1
  · have hm : max b 1 = 1 := max_eq_right (by omega)
    cases hw : p.MyRetainerWidget <;> simp [hb, hw, hm, SetRenderingPhase]
  · have hm : max b 1 = b := max_eq_left (by omega)
    cases hw : p.MyRetainerWidget <;> simp [hb, hw, hm, SetRenderingPhase]

theorem RunPanelCalls_defined (This : Nat) (calls : List FPanelCall) :
    ∀ p : UUIRetainerBox, PanelPhaseCountOk p → (∀ c ∈ calls, c.ArgsInt32) →
    ∃ p2, RunPanelCalls This calls p = some p2 ∧ PanelPhaseCountOk p2 := by
  induction calls with
  | nil =>
    intro p hp _
    exact ⟨p, rfl, hp⟩
  | cons c rest ih =>
    intro p hp hargs
    have hrest : ∀ c' ∈ rest, c'.ArgsInt32 := fun c' hc' => hargs c' (List.mem_cons_of_mem _ hc')
    have hc := hargs c (List.mem_cons_self _ _)
    obtain ⟨h1, h2, h3⟩ := hp
    cases c with
    | SetRenderingPhase a b =>
      simp only [FPanelCall.ArgsInt32] at hc
      simp only [RunPanelCalls]
      apply ih _ _ hrest
      obtain ⟨e1, e2⟩ := UUIRetainerBox_SetRenderingPhase_PhaseCount p a b
      refine ⟨by rw [e1]; exact le_max_right _ _, by rw [e1]; exact max_lt hc.2.2 (by norm_num), ?_⟩
      rw [e1]
      exact e2
    | RequestRender =>
      simp only [RunPanelCalls]
      apply ih _ _ hrest
      unfold UUIRetainerBox_RequestRender
      cases hw : p.MyRetainerWidget with
      | none => simp only [hw] at h3 ⊢; exact ⟨h1, h2, by simp [hw]⟩
      | some w => simp only [hw] at h3 ⊢; exact ⟨h1, h2, h3⟩
    | SetSetColourSpace cs =>
      simp only [RunPanelCalls]
      apply ih _ _ hrest
      unfold UUIRetainerBox_SetSetColourSpace
      cases hw : p.MyRetainerWidget with
      | none => simp only [hw] at h3 ⊢; exact ⟨h1, h2, by simp [hw]⟩
      | some w => simp only [hw] at h3 ⊢; exact ⟨h1, h2, h3⟩
    | ReleaseSlateResources =>
      simp only [RunPanelCalls]
      apply ih _ _ hrest
      exact ⟨h1, h2, trivial⟩
    | RebuildWidget d rt u =>
      simp only [RunPanelCalls]
      apply ih _ _ hrest
      exact ⟨h1, h2, rfl⟩
    | Paint a g =>
      simp only [RunPanelCalls]
      cases hw : p.MyRetainerWidget with
      | none =>
        simp only
        exact ih p ⟨h1, h2, by simp [hw]⟩ hrest
      | some w =>
        simp only [hw] at h3
        have hnz : toUInt64 w.PhaseCount ≠ 0 := by
          rw [h3]; exact toUInt64_ne_zero h1 h2
        obtain ⟨r, g1, w1, hpaint⟩ := PaintRetainedContent_defined This a g w (fun _ => hnz)
        simp only [hpaint]
        apply ih _ _ hrest
        exact ⟨h1, h2, (PaintRetainedContent_effect hpaint).2.2.1.trans h3⟩

/-- C13: (1) `UUIRetainerBox::SetRenderingPhase(phase, phaseCount)` stores `max(phaseCount, 1)`
in the panel and forwards the same value to the box, for arbitrary arguments. (2) Starting
from the panel's constructor, after every sequence of panel calls (`SetRenderingPhase` with
`int32` arguments, `RequestRender`, `SetSetColourSpace`, `ReleaseSlateResources`,
`RebuildWidget`) mixed with `PaintRetainedContent` calls on its box, every paint call has
returned (no modulo divided by zero), the stored phase count is at least 1, the box holds the
same phase count, and the phase rule of a next paint call is defined at every frame. -/
theorem C13_panel_phase_count (This : Nat) (calls : List FPanelCall)
    (c : EUIRetainerBoxColourSpace) (hargs : ∀ call ∈ calls, call.ArgsInt32) :
    (∀ (p : UUIRetainerBox) (a b : Int),
      (UUIRetainerBox_SetRenderingPhase p a b).PhaseCount = max b 1 ∧
      1 ≤ (UUIRetainerBox_SetRenderingPhase p a b).PhaseCount ∧
      ∀ w, (UUIRetainerBox_SetRenderingPhase p a b).MyRetainerWidget = some w →
        w.PhaseCount = max b 1) ∧
    ∃ p2, RunPanelCalls This calls (UUIRetainerBox_UUIRetainerBox c) = some p2 ∧
      1 ≤ p2.PhaseCount ∧
      ∀ w, p2.MyRetainerWidget = some w →
        w.PhaseCount = p2.PhaseCount ∧
        ∀ f : Nat, ∃ b, PaintRetainedContent_phaseRule w f = some b := by
  constructor
  · intro p a b
    obtain ⟨e1, e2⟩ := UUIRetainerBox_SetRenderingPhase_PhaseCount p a b
    refine ⟨e1, by rw [e1]; exact le_max_right _ _, fun w hw => ?_⟩
    rw [hw] at e2
    exact e2
  · obtain ⟨p2, hrun, h1, h2, h3⟩ := RunPanelCalls_defined This calls
      (UUIRetainerBox_UUIRetainerBox c)
      ⟨le_refl 1, by norm_num [UUIRetainerBox_UUIRetainerBox], trivial⟩ hargs
    refine ⟨p2, hrun, h1, fun w hw => ?_⟩
    rw [hw] at h3
    simp only at h3
    refine ⟨h3, fun f => ?_⟩
    exact PaintRetainedContent_phaseRule_defined w f
      (fun _ => by rw [h3]; exact toUInt64_ne_zero h1 h2)

/-- C13 at a concrete sequence: the box is built, the panel is given phase count 0 and then
-3, and the box is painted after each. -/
theorem C13_panel_phase_count_witness :
    ∃ p2, RunPanelCalls 1
        [FPanelCall.RebuildWidget false (exampleRenderTarget true 0) ⟨0, 0⟩,
         FPanelCall.SetRenderingPhase 0 0,
         FPanelCall.Paint (examplePaintInput 10 10) (exampleGlobals 5 1),
         FPanelCall.SetRenderingPhase 2 (-3),
         FPanelCall.Paint (examplePaintInput 10 10) (exampleGlobals 6 1)]
        (UUIRetainerBox_UUIRetainerBox EUIRetainerBoxColourSpace.Linear) = some p2 ∧
      1 ≤ p2.PhaseCount ∧
      ∀ w, p2.MyRetainerWidget = some w →
        w.PhaseCount = p2.PhaseCount ∧
        ∀ f : Nat, ∃ b, PaintRetainedContent_phaseRule w f = some b :=
  (C13_panel_phase_count 1
    [FPanelCall.RebuildWidget false (exampleRenderTarget true 0) ⟨0, 0⟩,
     FPanelCall.SetRenderingPhase 0 0,
     FPanelCall.Paint (examplePaintInput 10 10) (exampleGlobals 5 1),
     FPanelCall.SetRenderingPhase 2 (-3),
     FPanelCall.Paint (examplePaintInput 10 10) (exampleGlobals 6 1)]
    EUIRetainerBoxColourSpace.Linear (by decide)).2

/-! ## C14: a paint call that skips rendering -/

/-- What a skipped render does, for every call: when the call is not deferred, the request
flag is set on entry or by the phase rule or the size comparison, and the rounded width or
height is zero or the content is not visible, `PaintRetainedContent` returns false with the
shared counter incremented, `LastTickedFrame` set and the pool reset; only the request flag
stays as it was (set). -/
theorem PaintRetainedContent_skips (This : Nat) (a : FPaintInput) (g : FGlobals)
    (w : SUIRetainerBoxWidget) (bPhase : Bool)
    (hphase : PaintRetainedContent_phaseRule w g.GFrameCounter = some bPhase)
    (hbudget : PaintRetainedContent_throttled g = false)
    (hreq : bPhase = true ∨ a.RenderSize ≠ w.PreviousRenderSize ∨ w.bRenderRequested = true)
    (hskip : ¬ (toUInt32 (RoundToInt a.RenderSize.X) ≠ 0 ∧
      toUInt32 (RoundToInt a.RenderSize.Y) ≠ 0 ∧ a.bContentVisible = true)) :
    PaintRetainedContent This a g w =
      some (false, PaintRetainedContent_countWork g,
        ResetCacheNodePool
          { w with PreviousRenderSize := a.RenderSize, bRenderRequested := true,
                   LastTickedFrame := g.GFrameCounter }) := by
  rw [PaintRetainedContent_eq, hphase]
  simp only [hbudget, Bool.false_eq_true, if_false, hreq, if_true]
  rw [PaintRetainedContent_render_skipped _ _ _ _ hskip]

/-- C14, the code at the failing input. Box 1 has re-rendered in frame 5 (pool cursor 4, root
cache node at address 1000, request flag clear). In frame 6 the counter reads 0. (a) A paint
call with render size 0 x 5 (rounded width 0) returns false and leaves the request flag set,
but the counter reads 1, the pool cursor is 0 and the root pointer is null. (b) The same
happens after `RequestRender` for a call at 10 x 10 whose content is not visible. -/
theorem C14_skip_changes_counter_and_pool :
    examplePainted.2.2.LastUsedCachedNodeIndex = 4 ∧
    examplePainted.2.2.RootCacheNode = some 1000 ∧
    examplePainted.2.1.Shared_RetainerWorkThisFrame.TryGetValue 6 0 = 0 ∧
    ((PaintRetainedContent 1 (examplePaintInput 0 5)
        { examplePainted.2.1 with GFrameCounter := 6 } examplePainted.2.2).map fun r =>
      (r.1, r.2.2.bRenderRequested, r.2.1.Shared_RetainerWorkThisFrame.TryGetValue 6 0,
        r.2.2.LastUsedCachedNodeIndex, r.2.2.RootCacheNode)) =
      some (false, true, 1, 0, none) ∧
    ((PaintRetainedContent 1 { examplePaintInput 10 10 with bContentVisible := false }
        { examplePainted.2.1 with GFrameCounter := 6 }
        (RequestRender examplePainted.2.2)).map fun r =>
      (r.1, r.2.2.bRenderRequested, r.2.1.Shared_RetainerWorkThisFrame.TryGetValue 6 0,
        r.2.2.LastUsedCachedNodeIndex, r.2.2.RootCacheNode)) =
      some (false, true, 1, 0, none) := by
  refine ⟨by decide, by decide, by decide, by decide, by decide⟩

end UIRetainerBox
